import Mathlib

/-!
Shallow embedding of `src/app-layer.c` (application-layer dispatch core):
`AppLayerHandleTCPData`, `AppLayerHandleUdp`, and the per-thread context
lifecycle `AppLayerGetCtxThread` / `AppLayerDestroyCtxThread`.

External collaborators (protocol detector, L7 parser, TCP reassembler) are
injected as an `Env` of oracle functions, mirroring the external calls in the
source.  Machine integers are modelled as `Nat`, with the one place where
32-bit wraparound matters (`data_len - data_al_so_far`) made explicit via
`u32sub`.  `BUG_ON` aborts are modelled by returning `none`.
-/

namespace AppLayer

/-- Modelled from the spec: stream direction / position flags carried in the
`flags` argument (companion header, not in the excerpt).  `STREAM_TOSERVER`
and `STREAM_TOCLIENT` are distinct single bits; `STREAM_START` and
`STREAM_GAP` are further distinct bits. -/
def STREAM_START : Nat := 0x01

def STREAM_EOF : Nat := 0x02

def STREAM_TOSERVER : Nat := 0x04

def STREAM_TOCLIENT : Nat := 0x08

def STREAM_GAP : Nat := 0x10

/-- Modelled from the spec: the sentinel stored in
`ssn->data_first_seen_dir` once data has been dispatched to the parser.  The
source comment requires only that it is neither `STREAM_TOSERVER` nor
`STREAM_TOCLIENT`; we pick a bit disjoint from both. -/
def APP_LAYER_DATA_ALREADY_SENT_TO_APP_LAYER : Nat := 0x80

/-- `ALPROTO_UNKNOWN` sentinel for an undetected application protocol. -/
def ALPROTO_UNKNOWN : Nat := 0

def IPPROTO_TCP : Nat := 6

def IPPROTO_UDP : Nat := 17

/-- Modelled from the spec: flow flag bits (from `flow.h`, not in the
excerpt).  All that matters is that they are distinct single bits. -/
def FLOW_TS_PM_ALPROTO_DETECT_DONE : Nat := 0x01

def FLOW_TS_PP_ALPROTO_DETECT_DONE : Nat := 0x02

def FLOW_TC_PM_ALPROTO_DETECT_DONE : Nat := 0x04

def FLOW_TC_PP_ALPROTO_DETECT_DONE : Nat := 0x08

def FLOW_ALPROTO_DETECT_DONE : Nat := 0x10

def FLOW_NO_APPLAYER_INSPECTION : Nat := 0x20

/-- Packet direction bits in `p->flowflags` (from `flow.h`). -/
def FLOW_PKT_TOSERVER : Nat := 0x01

def FLOW_PKT_TOCLIENT : Nat := 0x02

/-- Modelled from the spec: per-stream flag set by
`StreamTcpSetStreamFlagAppProtoDetectionCompleted`. -/
def STREAMTCP_STREAM_FLAG_APPPROTO_DETECTION_COMPLETED : Nat := 0x01

/-- Modelled from the spec: session flags set by
`StreamTcpSetSessionNoReassemblyFlag` for direction 0 / 1. -/
def STREAMTCP_FLAG_NO_REASSEMBLY_DIR0 : Nat := 0x01

def STREAMTCP_FLAG_NO_REASSEMBLY_DIR1 : Nat := 0x02

/-- Modelled from the spec: decoder event ids (`decode-events.h`), distinct
naturals. -/
def APPLAYER_MISMATCH_PROTOCOL_BOTH_DIRECTIONS : Nat := 0

def APPLAYER_WRONG_DIRECTION_FIRST_DATA : Nat := 1

def APPLAYER_DETECT_PROTOCOL_ONLY_ONE_DIRECTION : Nat := 2

/-- `x & ~m` on machine integers: clear the bits of `m` in `x`. -/
def andNot (x m : Nat) : Nat := x ^^^ (x &&& m)

/-- 32-bit unsigned subtraction `a - b` (both operands are `uint32_t` in the
source), with explicit wraparound. -/
def u32sub (a b : Nat) : Nat := (4294967296 + a - b) % 4294967296

/-- Observed fields of `Flow` (see spec §3). `data_al_so_far0` is the carry
for direction 0 (toserver), `data_al_so_far1` for direction 1 (toclient). -/
structure Flow where
  flags : Nat
  proto : Nat
  alproto : Nat
  alproto_ts : Nat
  alproto_tc : Nat
  data_al_so_far0 : Nat
  data_al_so_far1 : Nat
  deriving DecidableEq, Repr

/-- `TcpStream`: only the flags field is observed by the dispatcher. -/
structure TcpStream where
  flags : Nat
  deriving DecidableEq, Repr

/-- `TcpSession`: the two streams, the first-data direction, and session
flags (for the no-reassembly bits). -/
structure TcpSession where
  client : TcpStream
  server : TcpStream
  data_first_seen_dir : Nat
  flags : Nat
  deriving DecidableEq, Repr

/-- `Packet`: direction bits in `flowflags`, the append-only event list, and
(for UDP) the datagram payload. -/
structure Packet where
  flowflags : Nat
  app_layer_events : List Nat
  payload : List Nat
  payload_len : Nat
  deriving DecidableEq, Repr

/-- Trace of external calls made by one dispatch: detector invocations,
parser invocations (with the protocol, direction flags, byte slice and the
length value handed over), and opposing-stream replays. -/
inductive Ev where
  | detect (bytes : List Nat) (len ipproto dirflags : Nat)
  | parse (alproto dirflags : Nat) (bytes : List Nat) (len : Nat)
  | replay
  deriving DecidableEq, Repr

/-- Result of one TCP dispatch: return code, updated flow / session /
packet, and the trace of external calls. -/
structure TcpOut where
  r : Int
  f : Flow
  ssn : TcpSession
  p : Packet
  trace : List Ev
  deriving DecidableEq, Repr

/-- Result of one UDP dispatch. -/
structure UdpOut where
  r : Int
  f : Flow
  trace : List Ev
  deriving DecidableEq, Repr

/-- The external collaborators consumed by the core (spec §6).
`alpdGetProto` returns the detected protocol together with the flow-flag
bits the detector ORs into `f->flags` (the PP/PM-done bookkeeping happens
inside the detector).  The reassembler oracles return only the replay
result code; their own parser calls happen outside this function. -/
structure Env where
  alpdGetProto : Flow → List Nat → Nat → Nat → Nat → Nat × Nat
  alpParseL7Data : Flow → Nat → Nat → List Nat → Nat → Int
  alpGetFirstDataDir : Nat → Nat → Nat
  streamTcpInlineMode : Bool
  streamTcpReassembleAppLayer : TcpSession → TcpStream → Packet → Int
  streamTcpReassembleInlineAppLayer : TcpSession → TcpStream → Packet → Int

/-- Inputs of one TCP dispatch that are not part of the persistent state:
which stream object was passed (`stream == &ssn->client`?), the chunk and
its length, and the direction/position flags. -/
structure TcpIn where
  whichClient : Bool
  data : List Nat
  data_len : Nat
  flags : Nat
  deriving DecidableEq, Repr

/-- Direction selector computed at source lines 140-148: true means
toserver (dir 0). -/
def tcpDir (inp : TcpIn) : Bool := inp.flags &&& STREAM_TOSERVER ≠ 0

/-- `*alproto` per direction: dir 0 (`ts = true`) is toserver. -/
def Flow.alprotoDir (f : Flow) (ts : Bool) : Nat :=
  if ts then f.alproto_ts else f.alproto_tc

def Flow.setAlprotoDir (f : Flow) (ts : Bool) (v : Nat) : Flow :=
  if ts then { f with alproto_ts := v } else { f with alproto_tc := v }

def Flow.soFarDir (f : Flow) (ts : Bool) : Nat :=
  if ts then f.data_al_so_far0 else f.data_al_so_far1

def Flow.setSoFarDir (f : Flow) (ts : Bool) (v : Nat) : Flow :=
  if ts then { f with data_al_so_far0 := v } else { f with data_al_so_far1 := v }

/-- `f->alproto = v`. -/
def Flow.setAlproto (f : Flow) (v : Nat) : Flow := { f with alproto := v }

/-- `f->flags |= m`. -/
def Flow.orFlags (f : Flow) (m : Nat) : Flow := { f with flags := f.flags ||| m }

/-- `f->flags &= ~m`. -/
def Flow.clearFlags (f : Flow) (m : Nat) : Flow := { f with flags := andNot f.flags m }

/-- `FlowSetSessionNoApplayerInspectionFlag(f)`. -/
def flowSetSessionNoApplayerInspectionFlag (f : Flow) : Flow :=
  f.orFlags FLOW_NO_APPLAYER_INSPECTION

/-- `FLOW_IS_PM_DONE(f, flags)` (macro from `flow.h`, modelled from the
spec: per-direction pattern-matcher-done predicate). -/
def FLOW_IS_PM_DONE (f : Flow) (dirflags : Nat) : Prop :=
  (if dirflags &&& STREAM_TOSERVER ≠ 0 then
    f.flags &&& FLOW_TS_PM_ALPROTO_DETECT_DONE
  else f.flags &&& FLOW_TC_PM_ALPROTO_DETECT_DONE) ≠ 0

/-- `FLOW_IS_PP_DONE(f, flags)`. -/
def FLOW_IS_PP_DONE (f : Flow) (dirflags : Nat) : Prop :=
  (if dirflags &&& STREAM_TOSERVER ≠ 0 then
    f.flags &&& FLOW_TS_PP_ALPROTO_DETECT_DONE
  else f.flags &&& FLOW_TC_PP_ALPROTO_DETECT_DONE) ≠ 0

instance (f : Flow) (d : Nat) : Decidable (FLOW_IS_PM_DONE f d) := by
  unfold FLOW_IS_PM_DONE; infer_instance

instance (f : Flow) (d : Nat) : Decidable (FLOW_IS_PP_DONE f d) := by
  unfold FLOW_IS_PP_DONE; infer_instance

/-- `FLOW_RESET_PM_DONE(f, flags)`. -/
def FLOW_RESET_PM_DONE (f : Flow) (dirflags : Nat) : Flow :=
  if dirflags &&& STREAM_TOSERVER ≠ 0 then f.clearFlags FLOW_TS_PM_ALPROTO_DETECT_DONE
  else f.clearFlags FLOW_TC_PM_ALPROTO_DETECT_DONE

/-- `FLOW_RESET_PP_DONE(f, flags)`. -/
def FLOW_RESET_PP_DONE (f : Flow) (dirflags : Nat) : Flow :=
  if dirflags &&& STREAM_TOSERVER ≠ 0 then f.clearFlags FLOW_TS_PP_ALPROTO_DETECT_DONE
  else f.clearFlags FLOW_TC_PP_ALPROTO_DETECT_DONE

/-- `ssn->data_first_seen_dir = v`. -/
def TcpSession.setDfsd (ssn : TcpSession) (v : Nat) : TcpSession :=
  { ssn with data_first_seen_dir := v }

/-- `StreamTcpSetStreamFlagAppProtoDetectionCompleted(stream)`, where the
stream is addressed as `&ssn->client` or `&ssn->server`. -/
def setDetectionCompleted (ssn : TcpSession) (client : Bool) : TcpSession :=
  if client then
    { ssn with client :=
        ⟨ssn.client.flags ||| STREAMTCP_STREAM_FLAG_APPPROTO_DETECTION_COMPLETED⟩ }
  else
    { ssn with server :=
        ⟨ssn.server.flags ||| STREAMTCP_STREAM_FLAG_APPPROTO_DETECTION_COMPLETED⟩ }

/-- `StreamTcpResetStreamFlagAppProtoDetectionCompleted(stream)`. -/
def resetDetectionCompleted (ssn : TcpSession) (client : Bool) : TcpSession :=
  if client then
    { ssn with client :=
        ⟨andNot ssn.client.flags STREAMTCP_STREAM_FLAG_APPPROTO_DETECTION_COMPLETED⟩ }
  else
    { ssn with server :=
        ⟨andNot ssn.server.flags STREAMTCP_STREAM_FLAG_APPPROTO_DETECTION_COMPLETED⟩ }

/-- Both streams marked detection-completed (server then client, as in the
failure branches of the source). -/
def setDetectionCompletedBoth (ssn : TcpSession) : TcpSession :=
  setDetectionCompleted (setDetectionCompleted ssn false) true

/-- `StreamTcpSetSessionNoReassemblyFlag(ssn, dir)`. -/
def setSessionNoReassembly (ssn : TcpSession) (ts : Bool) : TcpSession :=
  if ts then { ssn with flags := ssn.flags ||| STREAMTCP_FLAG_NO_REASSEMBLY_DIR0 }
  else { ssn with flags := ssn.flags ||| STREAMTCP_FLAG_NO_REASSEMBLY_DIR1 }

/-- `AppLayerDecoderEventsSetEventRaw(p->app_layer_events, ev)`: append the
event to the packet's event list. -/
def setEventRaw (p : Packet) (ev : Nat) : Packet :=
  { p with app_layer_events := p.app_layer_events ++ [ev] }

/-- `p->flowflags &= ~FLOW_PKT_TOCLIENT; p->flowflags |= FLOW_PKT_TOSERVER;` -/
def setPktToServer (p : Packet) : Packet :=
  { p with flowflags := andNot p.flowflags FLOW_PKT_TOCLIENT ||| FLOW_PKT_TOSERVER }

/-- `p->flowflags &= ~FLOW_PKT_TOSERVER; p->flowflags |= FLOW_PKT_TOCLIENT;` -/
def setPktToClient (p : Packet) : Packet :=
  { p with flowflags := andNot p.flowflags FLOW_PKT_TOSERVER ||| FLOW_PKT_TOCLIENT }

/-- Tail of the detected branch of Case S (source lines 309-315): set
`data_first_seen_dir` to the sentinel, hand `data + data_al_so_far` with
length `data_len - data_al_so_far` to the parser for `*alproto`, and zero
the per-direction carry. -/
def tcpDetectedParse (env : Env) (inp : TcpIn) (ts : Bool) (carry : Nat)
    (f : Flow) (ssn : TcpSession) (p : Packet) (tr : List Ev) : TcpOut :=
  let ssn := ssn.setDfsd APP_LAYER_DATA_ALREADY_SENT_TO_APP_LAYER
  let proto := f.alprotoDir ts
  let bytes := inp.data.drop carry
  let plen := u32sub inp.data_len carry
  let r := env.alpParseL7Data f proto inp.flags bytes plen
  let f := f.setSoFarDir ts 0
  ⟨r, f, ssn, p, tr ++ [Ev.parse proto inp.flags bytes plen]⟩

/-- Direction-of-first-data checks of the detected branch of Case S (source
lines 278-307), then fall through to the parse.  Returns `none` exactly when
the `BUG_ON(*alproto_otherdir != ALPROTO_UNKNOWN)` assertion fires.  The
`FlowCleanupAppLayer` call of the retry-reset branch releases external
parser state only and touches no field modelled here. -/
def tcpFirstDirChecks (env : Env) (inp : TcpIn) (ts : Bool) (carry : Nat)
    (f : Flow) (ssn : TcpSession) (p : Packet) (tr : List Ev) : Option TcpOut :=
  if ssn.data_first_seen_dir ≠ APP_LAYER_DATA_ALREADY_SENT_TO_APP_LAYER then
    let fdd := env.alpGetFirstDataDir f.proto (f.alprotoDir ts)
    if fdd ≠ 0 ∧ fdd &&& ssn.data_first_seen_dir = 0 then
      let p := setEventRaw p APPLAYER_WRONG_DIRECTION_FIRST_DATA
      let f := flowSetSessionNoApplayerInspectionFlag f
      let ssn := setDetectionCompletedBoth ssn
      let ssn := ssn.setDfsd APP_LAYER_DATA_ALREADY_SENT_TO_APP_LAYER
      some ⟨-1, f, ssn, p, tr⟩
    else if fdd ≠ 0 ∧ fdd &&& inp.flags = 0 then
      if f.alprotoDir (!ts) ≠ ALPROTO_UNKNOWN then
        none
      else
        let f := (f.setAlprotoDir ts ALPROTO_UNKNOWN).setAlproto ALPROTO_UNKNOWN
        let ssn := resetDetectionCompleted ssn inp.whichClient
        let f := FLOW_RESET_PP_DONE f inp.flags
        let f := FLOW_RESET_PM_DONE f inp.flags
        some ⟨-1, f, ssn, p, tr⟩
    else
      some (tcpDetectedParse env inp ts carry f ssn p tr)
  else
    some (tcpDetectedParse env inp ts carry f ssn p tr)

/-- Opposing-stream replay of the detected branch of Case S (source lines
207-260): if data was first seen in a direction other than the current one,
flip the packet's direction bits, ask the reassembler to replay the opposing
stream, restore the direction bits, and fail if the replay failed; then fall
through to the direction-of-first-data checks. -/
def tcpReplayBlock (env : Env) (inp : TcpIn) (ts : Bool) (carry : Nat)
    (f : Flow) (ssn : TcpSession) (p : Packet) (tr : List Ev) : Option TcpOut :=
  if ssn.data_first_seen_dir &&& (STREAM_TOSERVER ||| STREAM_TOCLIENT) ≠ 0 ∧
      inp.flags &&& ssn.data_first_seen_dir = 0 then
    if inp.whichClient then
      let pF := if env.streamTcpInlineMode then setPktToClient p else setPktToServer p
      let ret :=
        if env.streamTcpInlineMode then
          env.streamTcpReassembleInlineAppLayer ssn ssn.server pF
        else env.streamTcpReassembleAppLayer ssn ssn.server pF
      let pR := if env.streamTcpInlineMode then setPktToServer pF else setPktToClient pF
      if ret < 0 then
        some ⟨-1, flowSetSessionNoApplayerInspectionFlag f,
          setDetectionCompletedBoth ssn, pR, tr ++ [Ev.replay]⟩
      else tcpFirstDirChecks env inp ts carry f ssn pR (tr ++ [Ev.replay])
    else
      let pF := if env.streamTcpInlineMode then setPktToServer p else setPktToClient p
      let ret :=
        if env.streamTcpInlineMode then
          env.streamTcpReassembleInlineAppLayer ssn ssn.client pF
        else env.streamTcpReassembleAppLayer ssn ssn.client pF
      let pR := if env.streamTcpInlineMode then setPktToClient pF else setPktToServer pF
      if ret < 0 then
        some ⟨-1, flowSetSessionNoApplayerInspectionFlag f,
          setDetectionCompletedBoth ssn, pR, tr ++ [Ev.replay]⟩
      else tcpFirstDirChecks env inp ts carry f ssn pR (tr ++ [Ev.replay])
  else tcpFirstDirChecks env inp ts carry f ssn p tr

/-- Detected branch of Case S (source lines 182-315): mismatch resolution,
canonical `f->alproto`, mark this stream completed, replay, checks, parse.
Entered with the detection result already stored in this direction's slot. -/
def tcpStartDetected (env : Env) (inp : TcpIn) (ts : Bool) (carry detected : Nat)
    (f : Flow) (ssn : TcpSession) (p : Packet) (tr : List Ev) : Option TcpOut :=
  let aOther := f.alprotoDir (!ts)
  let fp : Flow × Packet :=
    if aOther ≠ ALPROTO_UNKNOWN ∧ aOther ≠ detected then
      let p := setEventRaw p APPLAYER_MISMATCH_PROTOCOL_BOTH_DIRECTIONS
      if ssn.data_first_seen_dir = APP_LAYER_DATA_ALREADY_SENT_TO_APP_LAYER then
        ((f.setAlprotoDir ts aOther).setAlproto aOther, p)
      else if inp.flags &&& STREAM_TOCLIENT ≠ 0 then
        ((f.setAlprotoDir (!ts) detected).setAlproto detected, p)
      else
        ((f.setAlprotoDir ts aOther).setAlproto aOther, p)
    else (f, p)
  let f := fp.1.setAlproto (fp.1.alprotoDir ts)
  let ssn := setDetectionCompleted ssn inp.whichClient
  tcpReplayBlock env inp ts carry f ssn fp.2 tr

/-- Undetected branch of Case S (source lines 316-367): parse under the
other direction's protocol when that one is known, otherwise check for
exhausted detection. -/
def tcpStartUnknown (env : Env) (inp : TcpIn) (ts : Bool) (carry : Nat)
    (f : Flow) (ssn : TcpSession) (p : Packet) (tr : List Ev) : Option TcpOut :=
  let aOther := f.alprotoDir (!ts)
  if aOther ≠ ALPROTO_UNKNOWN then
    let fdd := env.alpGetFirstDataDir f.proto aOther
    if ssn.data_first_seen_dir ≠ APP_LAYER_DATA_ALREADY_SENT_TO_APP_LAYER ∧
        fdd ≠ 0 ∧ fdd &&& inp.flags = 0 then
      some ⟨-1, flowSetSessionNoApplayerInspectionFlag f,
        setDetectionCompletedBoth ssn, p, tr⟩
    else
      let ssn :=
        if 0 < inp.data_len then ssn.setDfsd APP_LAYER_DATA_ALREADY_SENT_TO_APP_LAYER
        else ssn
      let bytes := inp.data.drop carry
      let plen := u32sub inp.data_len carry
      let r := env.alpParseL7Data f aOther inp.flags bytes plen
      let tr := tr ++ [Ev.parse aOther inp.flags bytes plen]
      if FLOW_IS_PM_DONE f inp.flags ∧ FLOW_IS_PP_DONE f inp.flags then
        let p := setEventRaw p APPLAYER_DETECT_PROTOCOL_ONLY_ONE_DIRECTION
        let ssn := setDetectionCompleted ssn inp.whichClient
        some ⟨r, f.setSoFarDir ts 0, ssn, p, tr⟩
      else
        some ⟨r, f.setSoFarDir ts inp.data_len, ssn, p, tr⟩
  else
    if FLOW_IS_PM_DONE f STREAM_TOSERVER ∧ FLOW_IS_PP_DONE f STREAM_TOSERVER ∧
        FLOW_IS_PM_DONE f STREAM_TOCLIENT ∧ FLOW_IS_PP_DONE f STREAM_TOCLIENT then
      some ⟨0, flowSetSessionNoApplayerInspectionFlag f,
        (setDetectionCompletedBoth ssn).setDfsd APP_LAYER_DATA_ALREADY_SENT_TO_APP_LAYER,
        p, tr⟩
    else some ⟨0, f, ssn, p, tr⟩

/-- `AppLayerHandleTCPData` (source lines 116-397): the TCP dispatch state
machine.  Returns `none` exactly when the `BUG_ON` assertion in the
retry-reset path fires. -/
def AppLayerHandleTCPData (env : Env) (inp : TcpIn)
    (f : Flow) (ssn : TcpSession) (p : Packet) : Option TcpOut :=
  if f.flags &&& FLOW_NO_APPLAYER_INSPECTION ≠ 0 then
    some ⟨0, f, ssn, p, []⟩
  else
    let ts := tcpDir inp
    if f.alprotoDir ts = ALPROTO_UNKNOWN ∧ inp.flags &&& STREAM_GAP ≠ 0 then
      let ssn := setDetectionCompleted ssn inp.whichClient
      some ⟨0, f, setSessionNoReassembly ssn ts, p, []⟩
    else if f.alprotoDir ts = ALPROTO_UNKNOWN ∧ inp.flags &&& STREAM_START ≠ 0 then
      let carry := if inp.data_len = 0 then 0 else f.soFarDir ts
      let det := env.alpdGetProto f inp.data inp.data_len IPPROTO_TCP inp.flags
      let f := (f.setAlprotoDir ts det.1).orFlags det.2
      let tr := [Ev.detect inp.data inp.data_len IPPROTO_TCP inp.flags]
      if det.1 ≠ ALPROTO_UNKNOWN then
        tcpStartDetected env inp ts carry det.1 f ssn p tr
      else
        tcpStartUnknown env inp ts carry f ssn p tr
    else
      if f.alproto ≠ ALPROTO_UNKNOWN then
        let r := env.alpParseL7Data f f.alproto inp.flags inp.data inp.data_len
        some ⟨r, f, ssn, p, [Ev.parse f.alproto inp.flags inp.data inp.data_len]⟩
      else some ⟨0, f, ssn, p, []⟩

/-- Direction flag derived from the packet at the top of
`AppLayerHandleUdp` (source lines 480-485). -/
def udpDirFlags (p : Packet) : Nat :=
  if p.flowflags &&& FLOW_PKT_TOSERVER ≠ 0 then STREAM_TOSERVER else STREAM_TOCLIENT

/-- `AppLayerHandleUdp` (source lines 470-535): detect once per flow on the
first datagram (marking `FLOW_ALPROTO_DETECT_DONE` whether or not detection
succeeded), then forward datagrams to the parser whenever a protocol is
known.  The flow write lock scopes the whole call and is not modelled. -/
def AppLayerHandleUdp (env : Env) (p : Packet) (f : Flow) : UdpOut :=
  let flags := udpDirFlags p
  if f.alproto = ALPROTO_UNKNOWN ∧ f.flags &&& FLOW_ALPROTO_DETECT_DONE = 0 then
    let det := env.alpdGetProto f p.payload p.payload_len IPPROTO_UDP flags
    let f := { f with alproto := det.1, flags := f.flags ||| det.2 }
    let tr := [Ev.detect p.payload p.payload_len IPPROTO_UDP flags]
    if f.alproto ≠ ALPROTO_UNKNOWN then
      let f := { f with flags := f.flags ||| FLOW_ALPROTO_DETECT_DONE }
      let r := env.alpParseL7Data f f.alproto flags p.payload p.payload_len
      ⟨r, f, tr ++ [Ev.parse f.alproto flags p.payload p.payload_len]⟩
    else
      ⟨0, { f with flags := f.flags ||| FLOW_ALPROTO_DETECT_DONE }, tr⟩
  else
    if f.alproto ≠ ALPROTO_UNKNOWN then
      let r := env.alpParseL7Data f f.alproto flags p.payload p.payload_len
      ⟨r, f, [Ev.parse f.alproto flags p.payload p.payload_len]⟩
    else ⟨0, f, []⟩

/-- `AppLayerCtxThread` (source lines 49-64): the two thread-local handles,
each `none` when not (yet) acquired (`memset 0`). -/
structure AppLayerCtxThread where
  alpd_tctx : Option Nat
  alp_tctx : Option Nat
  deriving DecidableEq, Repr

/-- Outcomes of the allocation / acquisition oracles for one
`AppLayerGetCtxThread` call: does `SCMalloc` succeed, and what do
`AlpdGetCtxThread` / `AlpGetCtxThread` return. -/
structure CtxEnv where
  mallocOk : Bool
  alpdCtx : Option Nat
  alpCtx : Option Nat
  deriving DecidableEq, Repr

/-- `AppLayerDestroyCtxThread` (source lines 101-114): release the inner
handles that are non-null, then free the context.  The function
unconditionally dereferences `app_tctx`, so a null argument is a crash,
modelled as `none`; otherwise the released handles are returned. -/
def AppLayerDestroyCtxThread (tctx : Option AppLayerCtxThread) : Option (List Nat) :=
  match tctx with
  | none => none
  | some c => some (c.alpd_tctx.toList ++ c.alp_tctx.toList)

/-- `AppLayerGetCtxThread` (source lines 79-99).  Returns `none` when the
call crashes (the error path invokes `AppLayerDestroyCtxThread` on the
current context pointer, which is null when `SCMalloc` failed); otherwise
returns the constructed context (or null on handled failure) together with
the inner handles released on the way out. -/
def AppLayerGetCtxThread (e : CtxEnv) : Option (Option AppLayerCtxThread × List Nat) :=
  if e.mallocOk then
    match e.alpdCtx with
    | none =>
      match AppLayerDestroyCtxThread (some ⟨none, none⟩) with
      | none => none
      | some rel => some (none, rel)
    | some d =>
      match e.alpCtx with
      | none =>
        match AppLayerDestroyCtxThread (some ⟨some d, none⟩) with
        | none => none
        | some rel => some (none, rel)
      | some a => some (some ⟨some d, some a⟩, [])
  else
    match AppLayerDestroyCtxThread none with
    | none => none
    | some rel => some (none, rel)

/-- One call of a sequence fed to the TCP dispatcher: its collaborators, its
chunk, its packet, and the direction in which the reassembler recorded the
session's first payload data before this dispatch (the assignment of
`data_first_seen_dir` happens in the reassembler, outside this file). -/
structure SeqCall where
  env : Env
  inp : TcpIn
  p : Packet
  dfsdPre : Option Nat

/-- Run a sequence of TCP dispatch calls against one flow and session,
propagating the `BUG_ON` crash. -/
def runTcpSeq (st : Flow × TcpSession) : List SeqCall → Option (Flow × TcpSession)
  | [] => some st
  | c :: cs =>
    let ssn := match c.dfsdPre with
      | none => st.2
      | some d => { st.2 with data_first_seen_dir := d }
    match AppLayerHandleTCPData c.env c.inp st.1 ssn c.p with
    | none => none
    | some o => runTcpSeq (o.f, o.ssn) cs

/-- Direction-protocol consistency (claim C10): whenever both per-direction
slots are known they agree with each other and with the canonical
`f->alproto`. -/
def FlowAlprotoInv (f : Flow) : Prop :=
  f.alproto_ts ≠ ALPROTO_UNKNOWN → f.alproto_tc ≠ ALPROTO_UNKNOWN →
    f.alproto_ts = f.alproto_tc ∧ f.alproto = f.alproto_ts

/-- Is this trace entry a parser invocation? -/
def Ev.isParse : Ev → Bool
  | .parse _ _ _ _ => true
  | _ => false

/-- Flow state after the UDP detection attempt: protocol stored, detector
bookkeeping bits and `FLOW_ALPROTO_DETECT_DONE` ORed in. -/
def udpPostDetect (f : Flow) (d e : Nat) : Flow :=
  { f with alproto := d, flags := (f.flags ||| e) ||| FLOW_ALPROTO_DETECT_DONE }

/-- An environment whose detector always fails and whose parser always
returns 7; used for concrete evaluations. -/
def c5env : Env where
  alpdGetProto := fun _ _ _ _ _ => (0, 0)
  alpParseL7Data := fun _ _ _ _ _ => 7
  alpGetFirstDataDir := fun _ _ => 0
  streamTcpInlineMode := false
  streamTcpReassembleAppLayer := fun _ _ _ => 0
  streamTcpReassembleInlineAppLayer := fun _ _ _ => 0

/-- A UDP flow with `FLOW_NO_APPLAYER_INSPECTION` set and HTTP (= 1) already
detected. -/
def c5f : Flow := ⟨FLOW_NO_APPLAYER_INSPECTION, IPPROTO_UDP, 1, 0, 0, 0, 0⟩

def c5p : Packet := ⟨FLOW_PKT_TOSERVER, [], [3, 4], 2⟩

def c5inp : TcpIn := ⟨true, [1], 1, STREAM_TOSERVER⟩

def c5ssn : TcpSession := ⟨⟨0⟩, ⟨0⟩, 0, 0⟩

/-- An environment whose detector identifies protocol 1 and whose parser
returns 5; used for concrete evaluations. -/
def c7env : Env where
  alpdGetProto := fun _ _ _ _ _ => (1, 0)
  alpParseL7Data := fun _ _ _ _ _ => 5
  alpGetFirstDataDir := fun _ _ => 0
  streamTcpInlineMode := false
  streamTcpReassembleAppLayer := fun _ _ _ => 0
  streamTcpReassembleInlineAppLayer := fun _ _ _ => 0

def c7f : Flow := ⟨0, IPPROTO_UDP, 0, 0, 0, 0, 0⟩

def c7p : Packet := ⟨FLOW_PKT_TOCLIENT, [], [9], 1⟩

/-- An environment whose detector fails while reporting all four PP/PM-done
bits; used for concrete evaluations. -/
def c6env : Env where
  alpdGetProto := fun _ _ _ _ _ => (0, 15)
  alpParseL7Data := fun _ _ _ _ _ => 0
  alpGetFirstDataDir := fun _ _ => 0
  streamTcpInlineMode := false
  streamTcpReassembleAppLayer := fun _ _ _ => 0
  streamTcpReassembleInlineAppLayer := fun _ _ _ => 0

def c6inp : TcpIn := ⟨true, [1], 1, STREAM_TOSERVER ||| STREAM_START⟩

def c6f : Flow := ⟨0, IPPROTO_TCP, 0, 0, 0, 0, 0⟩

def c6ssn : TcpSession := ⟨⟨0⟩, ⟨0⟩, STREAM_TOSERVER, 0⟩

def c6p : Packet := ⟨FLOW_PKT_TOSERVER, [], [], 0⟩

/-- An environment for the mismatch scenario: the detector identifies
protocol 2 while direction slots may already hold protocol 1; the parser
always succeeds. -/
def c3env : Env where
  alpdGetProto := fun _ _ _ _ _ => (2, 0)
  alpParseL7Data := fun _ _ _ _ _ => 0
  alpGetFirstDataDir := fun _ _ => 0
  streamTcpInlineMode := false
  streamTcpReassembleAppLayer := fun _ _ _ => 0
  streamTcpReassembleInlineAppLayer := fun _ _ _ => 0

def c3inp : TcpIn := ⟨false, [71, 69, 84], 3, STREAM_TOSERVER ||| STREAM_START⟩

def c3f : Flow := ⟨0, IPPROTO_TCP, 1, 0, 1, 0, 0⟩

def c3ssn : TcpSession := ⟨⟨0⟩, ⟨0⟩, APP_LAYER_DATA_ALREADY_SENT_TO_APP_LAYER, 0⟩

def c3p : Packet := ⟨FLOW_PKT_TOSERVER, [], [], 0⟩

/-- An environment whose detector identifies protocol 3; used for concrete
evaluations of the carry arithmetic. -/
def c9env : Env where
  alpdGetProto := fun _ _ _ _ _ => (3, 0)
  alpParseL7Data := fun _ _ _ _ _ => 0
  alpGetFirstDataDir := fun _ _ => 0
  streamTcpInlineMode := false
  streamTcpReassembleAppLayer := fun _ _ _ => 0
  streamTcpReassembleInlineAppLayer := fun _ _ _ => 0

def c9inp : TcpIn := ⟨true, [1, 2, 3, 4, 5], 5, STREAM_TOSERVER ||| STREAM_START⟩

def c9f : Flow := ⟨0, IPPROTO_TCP, 0, 0, 0, 2, 0⟩

def c9ssn : TcpSession := ⟨⟨0⟩, ⟨0⟩, APP_LAYER_DATA_ALREADY_SENT_TO_APP_LAYER, 0⟩

def c9p : Packet := ⟨FLOW_PKT_TOSERVER, [], [], 0⟩

/-- An environment whose detector identifies protocol 1 (HTTP) and whose
parser for protocol 1 requires first data toserver. -/
def c2env : Env where
  alpdGetProto := fun _ _ _ _ _ => (1, 0)
  alpParseL7Data := fun _ _ _ _ _ => 0
  alpGetFirstDataDir := fun _ pr => if pr = 1 then STREAM_TOSERVER else 0
  streamTcpInlineMode := false
  streamTcpReassembleAppLayer := fun _ _ _ => 0
  streamTcpReassembleInlineAppLayer := fun _ _ _ => 0

def c2inp : TcpIn := ⟨true, [9], 1, STREAM_TOCLIENT ||| STREAM_START⟩

def c2f : Flow := ⟨0, IPPROTO_TCP, 0, 0, 0, 0, 0⟩

def c2ssn : TcpSession := ⟨⟨0⟩, ⟨0⟩, STREAM_TOCLIENT, 0⟩

def c2ssnB : TcpSession := ⟨⟨0⟩, ⟨0⟩, STREAM_TOSERVER, 0⟩

def c2p : Packet := ⟨FLOW_PKT_TOCLIENT, [], [], 0⟩

/-- An environment for the wrong-direction scenario: toserver bytes are
identified as protocol 1 whose parser wants first data toserver, toclient
bytes are not identified. -/
def c1env : Env where
  alpdGetProto := fun _ _ _ _ fl => if fl &&& STREAM_TOSERVER ≠ 0 then (1, 0) else (0, 0)
  alpParseL7Data := fun _ _ _ _ _ => 0
  alpGetFirstDataDir := fun _ pr => if pr = 1 then STREAM_TOSERVER else 0
  streamTcpInlineMode := false
  streamTcpReassembleAppLayer := fun _ _ _ => 0
  streamTcpReassembleInlineAppLayer := fun _ _ _ => 0

def c1inpA : TcpIn := ⟨true, [9, 9], 2, STREAM_TOCLIENT ||| STREAM_START⟩

def c1inpB : TcpIn := ⟨false, [71, 69, 84], 3, STREAM_TOSERVER ||| STREAM_START⟩

def c1f : Flow := ⟨0, IPPROTO_TCP, 0, 0, 0, 0, 0⟩

/-- Session state during the scenario: the reassembler has recorded the
toclient direction as the first one that carried payload data. -/
def c1ssn : TcpSession := ⟨⟨0⟩, ⟨0⟩, STREAM_TOCLIENT, 0⟩

def c1pA : Packet := ⟨FLOW_PKT_TOCLIENT, [], [], 0⟩

def c1pB : Packet := ⟨FLOW_PKT_TOSERVER, [], [], 0⟩

/-- An environment whose opposing-stream replay fails; used for concrete
evaluations of the replay block. -/
def c4env : Env where
  alpdGetProto := fun _ _ _ _ _ => (0, 0)
  alpParseL7Data := fun _ _ _ _ _ => 0
  alpGetFirstDataDir := fun _ _ => 0
  streamTcpInlineMode := false
  streamTcpReassembleAppLayer := fun _ _ _ => -1
  streamTcpReassembleInlineAppLayer := fun _ _ _ => -1

def c4inp : TcpIn := ⟨true, [1], 1, STREAM_TOSERVER ||| STREAM_START⟩

def c4f : Flow := ⟨0, IPPROTO_TCP, 0, 0, 0, 0, 0⟩

def c4ssn : TcpSession := ⟨⟨0⟩, ⟨0⟩, STREAM_TOCLIENT, 0⟩

def c4p : Packet := ⟨FLOW_PKT_TOCLIENT, [], [], 0⟩

/-- An environment whose detector always identifies protocol 1 with no
first-data-dir requirement; used for the invariant scenario. -/
def c10env : Env where
  alpdGetProto := fun _ _ _ _ _ => (1, 0)
  alpParseL7Data := fun _ _ _ _ _ => 0
  alpGetFirstDataDir := fun _ _ => 0
  streamTcpInlineMode := false
  streamTcpReassembleAppLayer := fun _ _ _ => 0
  streamTcpReassembleInlineAppLayer := fun _ _ _ => 0

/-- The initial flow of claim C10: all three protocol fields UNKNOWN. -/
def c10f : Flow := ⟨0, IPPROTO_TCP, 0, 0, 0, 0, 0⟩

def c10ssn : TcpSession := ⟨⟨0⟩, ⟨0⟩, STREAM_TOSERVER, 0⟩

/-- Two dispatch calls: a toserver START chunk and then a toclient START
chunk, both identified as protocol 1. -/
def c10calls : List SeqCall :=
  [⟨c10env, ⟨true, [71], 1, STREAM_TOSERVER ||| STREAM_START⟩,
    ⟨FLOW_PKT_TOSERVER, [], [], 0⟩, none⟩,
   ⟨c10env, ⟨false, [72], 1, STREAM_TOCLIENT ||| STREAM_START⟩,
    ⟨FLOW_PKT_TOCLIENT, [], [], 0⟩, none⟩]


section Lemmas

/-- ORing a mask in and then selecting it yields the mask. -/
theorem lor_and_mask (x m : Nat) : (x ||| m) &&& m = m := by
  apply Nat.eq_of_testBit_eq
  intro i
  simp only [Nat.testBit_land, Nat.testBit_lor]
  cases m.testBit i <;> simp

@[simp]
theorem setAlproto_alproto (f : Flow) (v : Nat) : (f.setAlproto v).alproto = v := rfl

@[simp]
theorem setAlproto_flags (f : Flow) (v : Nat) : (f.setAlproto v).flags = f.flags := rfl

@[simp]
theorem setAlproto_proto (f : Flow) (v : Nat) : (f.setAlproto v).proto = f.proto := rfl

@[simp]
theorem setAlproto_ts (f : Flow) (v : Nat) : (f.setAlproto v).alproto_ts = f.alproto_ts := rfl

@[simp]
theorem setAlproto_tc (f : Flow) (v : Nat) : (f.setAlproto v).alproto_tc = f.alproto_tc := rfl

@[simp]
theorem setAlproto_alprotoDir (f : Flow) (v : Nat) (b : Bool) :
    (f.setAlproto v).alprotoDir b = f.alprotoDir b := rfl

@[simp]
theorem setAlproto_soFarDir (f : Flow) (v : Nat) (b : Bool) :
    (f.setAlproto v).soFarDir b = f.soFarDir b := rfl

@[simp]
theorem orFlags_flags (f : Flow) (m : Nat) : (f.orFlags m).flags = f.flags ||| m := rfl

@[simp]
theorem orFlags_alproto (f : Flow) (m : Nat) : (f.orFlags m).alproto = f.alproto := rfl

@[simp]
theorem orFlags_proto (f : Flow) (m : Nat) : (f.orFlags m).proto = f.proto := rfl

@[simp]
theorem orFlags_ts (f : Flow) (m : Nat) : (f.orFlags m).alproto_ts = f.alproto_ts := rfl

@[simp]
theorem orFlags_tc (f : Flow) (m : Nat) : (f.orFlags m).alproto_tc = f.alproto_tc := rfl

@[simp]
theorem orFlags_alprotoDir (f : Flow) (m : Nat) (b : Bool) :
    (f.orFlags m).alprotoDir b = f.alprotoDir b := rfl

@[simp]
theorem orFlags_soFarDir (f : Flow) (m : Nat) (b : Bool) :
    (f.orFlags m).soFarDir b = f.soFarDir b := rfl

@[simp]
theorem clearFlags_flags (f : Flow) (m : Nat) : (f.clearFlags m).flags = andNot f.flags m := rfl

@[simp]
theorem clearFlags_alproto (f : Flow) (m : Nat) : (f.clearFlags m).alproto = f.alproto := rfl

@[simp]
theorem clearFlags_ts (f : Flow) (m : Nat) : (f.clearFlags m).alproto_ts = f.alproto_ts := rfl

@[simp]
theorem clearFlags_tc (f : Flow) (m : Nat) : (f.clearFlags m).alproto_tc = f.alproto_tc := rfl

@[simp]
theorem clearFlags_alprotoDir (f : Flow) (m : Nat) (b : Bool) :
    (f.clearFlags m).alprotoDir b = f.alprotoDir b := rfl

@[simp]
theorem setSoFarDir_flags (f : Flow) (b : Bool) (v : Nat) :
    (f.setSoFarDir b v).flags = f.flags := by
  cases b <;> rfl

@[simp]
theorem setSoFarDir_alproto (f : Flow) (b : Bool) (v : Nat) :
    (f.setSoFarDir b v).alproto = f.alproto := by
  cases b <;> rfl

@[simp]
theorem setSoFarDir_ts (f : Flow) (b : Bool) (v : Nat) :
    (f.setSoFarDir b v).alproto_ts = f.alproto_ts := by
  cases b <;> rfl

@[simp]
theorem setSoFarDir_tc (f : Flow) (b : Bool) (v : Nat) :
    (f.setSoFarDir b v).alproto_tc = f.alproto_tc := by
  cases b <;> rfl

@[simp]
theorem setSoFarDir_alprotoDir (f : Flow) (b c : Bool) (v : Nat) :
    (f.setSoFarDir b v).alprotoDir c = f.alprotoDir c := by
  cases b <;> cases c <;> rfl

@[simp]
theorem setSoFarDir_self (f : Flow) (b : Bool) (v : Nat) :
    (f.setSoFarDir b v).soFarDir b = v := by
  cases b <;> rfl

@[simp]
theorem setDfsd_dfsd (ssn : TcpSession) (v : Nat) :
    (ssn.setDfsd v).data_first_seen_dir = v := rfl

@[simp]
theorem setDfsd_client (ssn : TcpSession) (v : Nat) : (ssn.setDfsd v).client = ssn.client := rfl

@[simp]
theorem setDfsd_server (ssn : TcpSession) (v : Nat) : (ssn.setDfsd v).server = ssn.server := rfl

@[simp]
theorem setDfsd_flags (ssn : TcpSession) (v : Nat) : (ssn.setDfsd v).flags = ssn.flags := rfl

@[simp]
theorem setDetectionCompleted_dfsd (ssn : TcpSession) (c : Bool) :
    (setDetectionCompleted ssn c).data_first_seen_dir = ssn.data_first_seen_dir := by
  cases c <;> rfl

@[simp]
theorem setDetectionCompleted_flags (ssn : TcpSession) (c : Bool) :
    (setDetectionCompleted ssn c).flags = ssn.flags := by
  cases c <;> rfl

@[simp]
theorem setDetectionCompletedBoth_client (ssn : TcpSession) :
    (setDetectionCompletedBoth ssn).client.flags =
      ssn.client.flags ||| STREAMTCP_STREAM_FLAG_APPPROTO_DETECTION_COMPLETED := rfl

@[simp]
theorem setDetectionCompletedBoth_server (ssn : TcpSession) :
    (setDetectionCompletedBoth ssn).server.flags =
      ssn.server.flags ||| STREAMTCP_STREAM_FLAG_APPPROTO_DETECTION_COMPLETED := rfl

@[simp]
theorem setDetectionCompletedBoth_dfsd (ssn : TcpSession) :
    (setDetectionCompletedBoth ssn).data_first_seen_dir = ssn.data_first_seen_dir := rfl

@[simp]
theorem setEventRaw_events (p : Packet) (ev : Nat) :
    (setEventRaw p ev).app_layer_events = p.app_layer_events ++ [ev] := rfl

@[simp]
theorem setEventRaw_flowflags (p : Packet) (ev : Nat) :
    (setEventRaw p ev).flowflags = p.flowflags := rfl

@[simp]
theorem setPktToServer_events (p : Packet) :
    (setPktToServer p).app_layer_events = p.app_layer_events := rfl

@[simp]
theorem setPktToClient_events (p : Packet) :
    (setPktToClient p).app_layer_events = p.app_layer_events := rfl

@[simp]
theorem flowSetNoInsp_eq (f : Flow) :
    flowSetSessionNoApplayerInspectionFlag f = f.orFlags FLOW_NO_APPLAYER_INSPECTION := rfl

/-- Both direction slots unknown makes the per-direction read unknown. -/
theorem alprotoDir_of_both_unknown {f : Flow} (hts : f.alproto_ts = ALPROTO_UNKNOWN)
    (htc : f.alproto_tc = ALPROTO_UNKNOWN) (b : Bool) :
    f.alprotoDir b = ALPROTO_UNKNOWN := by
  cases b <;> simp [Flow.alprotoDir, hts, htc]

/-- `setAlprotoDir` does not touch the flag word. -/
theorem setAlprotoDir_flags (f : Flow) (b : Bool) (v : Nat) :
    (f.setAlprotoDir b v).flags = f.flags := by
  cases b <;> simp [Flow.setAlprotoDir]

/-- `setAlprotoDir` does not touch the canonical protocol. -/
theorem setAlprotoDir_alproto (f : Flow) (b : Bool) (v : Nat) :
    (f.setAlprotoDir b v).alproto = f.alproto := by
  cases b <;> simp [Flow.setAlprotoDir]

theorem setAlprotoDir_ts (f : Flow) (b : Bool) (v : Nat) :
    (f.setAlprotoDir b v).alproto_ts = if b then v else f.alproto_ts := by
  cases b <;> simp [Flow.setAlprotoDir]

theorem setAlprotoDir_tc (f : Flow) (b : Bool) (v : Nat) :
    (f.setAlprotoDir b v).alproto_tc = if b then f.alproto_tc else v := by
  cases b <;> simp [Flow.setAlprotoDir]

theorem setAlprotoDir_proto (f : Flow) (b : Bool) (v : Nat) :
    (f.setAlprotoDir b v).proto = f.proto := by
  cases b <;> simp [Flow.setAlprotoDir]

theorem alprotoDir_self (f : Flow) (b : Bool) (v : Nat) :
    (f.setAlprotoDir b v).alprotoDir b = v := by
  cases b <;> simp [Flow.setAlprotoDir, Flow.alprotoDir]

theorem alprotoDir_not (f : Flow) (b : Bool) (v : Nat) :
    (f.setAlprotoDir b v).alprotoDir (!b) = f.alprotoDir (!b) := by
  cases b <;> simp [Flow.setAlprotoDir, Flow.alprotoDir]

/-- Clearing a mask leaves no bit of the mask set. -/
theorem andNot_land_self (x m : Nat) : andNot x m &&& m = 0 := by
  apply Nat.eq_of_testBit_eq
  intro i
  simp only [andNot, Nat.testBit_land, Nat.testBit_xor, Nat.zero_testBit]
  cases hx : x.testBit i <;> cases hm : m.testBit i <;> simp

theorem tcpDir_eq_true {inp : TcpIn} :
    tcpDir inp = true ↔ inp.flags &&& STREAM_TOSERVER ≠ 0 := by
  simp [tcpDir]

theorem tcpDir_eq_false {inp : TcpIn} :
    tcpDir inp = false ↔ inp.flags &&& STREAM_TOSERVER = 0 := by
  simp [tcpDir]

@[simp]
theorem FLOW_RESET_PM_DONE_alproto (g : Flow) (d : Nat) :
    (FLOW_RESET_PM_DONE g d).alproto = g.alproto := by
  unfold FLOW_RESET_PM_DONE
  split <;> simp

@[simp]
theorem FLOW_RESET_PP_DONE_alproto (g : Flow) (d : Nat) :
    (FLOW_RESET_PP_DONE g d).alproto = g.alproto := by
  unfold FLOW_RESET_PP_DONE
  split <;> simp

@[simp]
theorem FLOW_RESET_PM_DONE_alprotoDir (g : Flow) (d : Nat) (b : Bool) :
    (FLOW_RESET_PM_DONE g d).alprotoDir b = g.alprotoDir b := by
  unfold FLOW_RESET_PM_DONE
  split <;> simp

@[simp]
theorem FLOW_RESET_PP_DONE_alprotoDir (g : Flow) (d : Nat) (b : Bool) :
    (FLOW_RESET_PP_DONE g d).alprotoDir b = g.alprotoDir b := by
  unfold FLOW_RESET_PP_DONE
  split <;> simp

@[simp]
theorem resetDetectionCompleted_dfsd (ssn : TcpSession) (c : Bool) :
    (resetDetectionCompleted ssn c).data_first_seen_dir = ssn.data_first_seen_dir := by
  cases c <;> rfl

@[simp]
theorem alprotoDir_true (f : Flow) : f.alprotoDir true = f.alproto_ts := rfl

@[simp]
theorem alprotoDir_false (f : Flow) : f.alprotoDir false = f.alproto_tc := rfl

/-- Projection of an if-then-else packet. -/
theorem events_ite (c : Prop) [Decidable c] (a b : Packet) :
    (ite c a b).app_layer_events = ite c a.app_layer_events b.app_layer_events := by
  split <;> rfl

theorem flowflags_ite (c : Prop) [Decidable c] (a b : Packet) :
    (ite c a b).flowflags = ite c a.flowflags b.flowflags := by
  split <;> rfl

@[simp]
theorem setPktToServer_flowflags (p : Packet) :
    (setPktToServer p).flowflags = andNot p.flowflags FLOW_PKT_TOCLIENT ||| FLOW_PKT_TOSERVER := rfl

@[simp]
theorem setPktToClient_flowflags (p : Packet) :
    (setPktToClient p).flowflags = andNot p.flowflags FLOW_PKT_TOSERVER ||| FLOW_PKT_TOCLIENT := rfl

/-- `andNot` clears exactly the mask's bits. -/
theorem testBit_andNot (x m i : Nat) :
    (andNot x m).testBit i = (x.testBit i && !(m.testBit i)) := by
  simp only [andNot, Nat.testBit_xor, Nat.testBit_land]
  cases x.testBit i <;> cases m.testBit i <;> rfl

/-- Round trip of the replay direction flip: a packet whose direction bits
are exactly `FLOW_PKT_TOSERVER` is restored by flip-to-client followed by
flip-back-to-server. -/
theorem restore_dir_toserver (x : Nat)
    (h : x &&& (FLOW_PKT_TOSERVER ||| FLOW_PKT_TOCLIENT) = FLOW_PKT_TOSERVER) :
    andNot (andNot x FLOW_PKT_TOSERVER ||| FLOW_PKT_TOCLIENT) FLOW_PKT_TOCLIENT |||
      FLOW_PKT_TOSERVER = x := by
  have h1 : ∀ j, Nat.testBit 1 (j + 1) = false := fun j => by simp [Nat.testBit_succ]
  have h2 : ∀ j, Nat.testBit 2 (j + 2) = false := fun j => by simp [Nat.testBit_succ]
  apply Nat.eq_of_testBit_eq
  intro i
  have hb := congrArg (fun y => y.testBit i) h
  simp only [Nat.testBit_land, Nat.testBit_lor, FLOW_PKT_TOSERVER, FLOW_PKT_TOCLIENT] at hb
  simp only [Nat.testBit_lor, testBit_andNot, FLOW_PKT_TOSERVER, FLOW_PKT_TOCLIENT]
  match i with
  | 0 =>
    simp only [(by decide : Nat.testBit 1 0 = true),
      (by decide : Nat.testBit 2 0 = false)] at hb ⊢
    simp at hb
    simp [hb]
  | 1 =>
    simp only [(by decide : Nat.testBit 1 1 = false),
      (by decide : Nat.testBit 2 1 = true)] at hb ⊢
    simp at hb
    simp [hb]
  | (j + 2) =>
    simp only [h1 (j + 1), h2 j] at hb ⊢
    simp

/-- Round trip of the replay direction flip, toclient polarity. -/
theorem restore_dir_toclient (x : Nat)
    (h : x &&& (FLOW_PKT_TOSERVER ||| FLOW_PKT_TOCLIENT) = FLOW_PKT_TOCLIENT) :
    andNot (andNot x FLOW_PKT_TOCLIENT ||| FLOW_PKT_TOSERVER) FLOW_PKT_TOSERVER |||
      FLOW_PKT_TOCLIENT = x := by
  have h1 : ∀ j, Nat.testBit 1 (j + 1) = false := fun j => by simp [Nat.testBit_succ]
  have h2 : ∀ j, Nat.testBit 2 (j + 2) = false := fun j => by simp [Nat.testBit_succ]
  apply Nat.eq_of_testBit_eq
  intro i
  have hb := congrArg (fun y => y.testBit i) h
  simp only [Nat.testBit_land, Nat.testBit_lor, FLOW_PKT_TOSERVER, FLOW_PKT_TOCLIENT] at hb
  simp only [Nat.testBit_lor, testBit_andNot, FLOW_PKT_TOSERVER, FLOW_PKT_TOCLIENT]
  match i with
  | 0 =>
    simp only [(by decide : Nat.testBit 1 0 = true),
      (by decide : Nat.testBit 2 0 = false)] at hb ⊢
    simp at hb
    simp [hb]
  | 1 =>
    simp only [(by decide : Nat.testBit 1 1 = false),
      (by decide : Nat.testBit 2 1 = true)] at hb ⊢
    simp at hb
    simp [hb]
  | (j + 2) =>
    simp only [h1 (j + 1), h2 j] at hb ⊢
    simp

/-- The sentinel has no direction bits, so the replay guard never fires
once data was already sent to the parser. -/
theorem sent_and_dirs :
    APP_LAYER_DATA_ALREADY_SENT_TO_APP_LAYER &&& (STREAM_TOSERVER ||| STREAM_TOCLIENT) = 0 := by
  decide

/-- In range, the 32-bit subtraction agrees with Nat subtraction. -/
theorem u32sub_of_le {a b : Nat} (hb : b ≤ a) (ha : a < 4294967296) :
    u32sub a b = a - b := by
  have h1 : 4294967296 + a - b = (a - b) + 4294967296 := by omega
  unfold u32sub
  rw [h1, Nat.add_mod_right, Nat.mod_eq_of_lt (by omega)]

/-- When the carry exceeds the chunk length the 32-bit subtraction wraps to
a value larger than the chunk length. -/
theorem u32sub_gt {a b : Nat} (hab : a < b) (hb : b < 4294967296) :
    a < u32sub a b := by
  have h1 : 4294967296 + a - b < 4294967296 := by omega
  unfold u32sub
  rw [Nat.mod_eq_of_lt h1]
  omega

theorem FLOW_IS_PM_DONE_toserver (f : Flow) :
    FLOW_IS_PM_DONE f STREAM_TOSERVER ↔ f.flags &&& FLOW_TS_PM_ALPROTO_DETECT_DONE ≠ 0 := by
  unfold FLOW_IS_PM_DONE
  rw [if_pos (by decide)]

theorem FLOW_IS_PP_DONE_toserver (f : Flow) :
    FLOW_IS_PP_DONE f STREAM_TOSERVER ↔ f.flags &&& FLOW_TS_PP_ALPROTO_DETECT_DONE ≠ 0 := by
  unfold FLOW_IS_PP_DONE
  rw [if_pos (by decide)]

theorem FLOW_IS_PM_DONE_toclient (f : Flow) :
    FLOW_IS_PM_DONE f STREAM_TOCLIENT ↔ f.flags &&& FLOW_TC_PM_ALPROTO_DETECT_DONE ≠ 0 := by
  unfold FLOW_IS_PM_DONE
  rw [if_neg (by decide)]

theorem FLOW_IS_PP_DONE_toclient (f : Flow) :
    FLOW_IS_PP_DONE f STREAM_TOCLIENT ↔ f.flags &&& FLOW_TC_PP_ALPROTO_DETECT_DONE ≠ 0 := by
  unfold FLOW_IS_PP_DONE
  rw [if_neg (by decide)]

end Lemmas

/-- C8: on the `SCMalloc` failure path `AppLayerGetCtxThread` invokes
`AppLayerDestroyCtxThread` on a null context, which dereferences it (crash,
modelled as `none`); the two handle-acquisition failure paths are handled
and release exactly the handles acquired before the failure. -/
theorem C8_createFailureCleanup :
    AppLayerGetCtxThread ⟨false, some 1, some 2⟩ = none ∧
    AppLayerGetCtxThread ⟨true, none, some 2⟩ = some (none, []) ∧
    AppLayerGetCtxThread ⟨true, some 1, none⟩ = some (none, [1]) ∧
    AppLayerDestroyCtxThread none = none ∧
    AppLayerGetCtxThread ⟨true, some 1, some 2⟩ = some (some ⟨some 1, some 2⟩, []) := by
  decide

/-- C5 counterexample: a UDP dispatch on a flow whose flags contain
`FLOW_NO_APPLAYER_INSPECTION` (with a known protocol) still invokes the
parser and returns the parser's code, not 0 — the UDP path never consults
the flag. -/
theorem C5_counterexample :
    c5f.flags &&& FLOW_NO_APPLAYER_INSPECTION ≠ 0 ∧
    (AppLayerHandleUdp c5env c5p c5f).trace = [Ev.parse 1 STREAM_TOSERVER [3, 4] 2] ∧
    (AppLayerHandleUdp c5env c5p c5f).r = 7 := by
  decide

/-- C5 (amended): once `FLOW_NO_APPLAYER_INSPECTION` is set, every TCP
dispatch call — whatever the flow's protocol state — returns 0 immediately,
invoking neither detector nor parser; the UDP dispatcher however does not
consult the flag, and whenever such a flow's protocol is known it still
forwards the payload to the parser and returns the parser's code. -/
theorem C5_noInspection (env : Env) (inp : TcpIn) (f : Flow) (ssn : TcpSession)
    (p : Packet) (h : f.flags &&& FLOW_NO_APPLAYER_INSPECTION ≠ 0) :
    AppLayerHandleTCPData env inp f ssn p = some ⟨0, f, ssn, p, []⟩ ∧
    (f.alproto ≠ ALPROTO_UNKNOWN →
      (AppLayerHandleUdp env p f).trace =
        [Ev.parse f.alproto (udpDirFlags p) p.payload p.payload_len] ∧
      (AppLayerHandleUdp env p f).r =
        env.alpParseL7Data f f.alproto (udpDirFlags p) p.payload p.payload_len) := by
  refine ⟨?_, fun hal => ⟨?_, ?_⟩⟩
  · unfold AppLayerHandleTCPData
    rw [if_pos h]
  · unfold AppLayerHandleUdp
    rw [if_neg (fun hc => hal hc.1), if_pos hal]
  · unfold AppLayerHandleUdp
    rw [if_neg (fun hc => hal hc.1), if_pos hal]

theorem C5_noInspection_witness :
    AppLayerHandleTCPData c5env c5inp c5f c5ssn c5p = some ⟨0, c5f, c5ssn, c5p, []⟩ ∧
    ((AppLayerHandleUdp c5env c5p c5f).trace =
      [Ev.parse c5f.alproto (udpDirFlags c5p) c5p.payload c5p.payload_len] ∧
    (AppLayerHandleUdp c5env c5p c5f).r =
      c5env.alpParseL7Data c5f c5f.alproto (udpDirFlags c5p) c5p.payload c5p.payload_len) :=
  ⟨(C5_noInspection c5env c5inp c5f c5ssn c5p (by decide)).1,
   (C5_noInspection c5env c5inp c5f c5ssn c5p (by decide)).2 (by decide)⟩

/-- C7: on a UDP flow with unknown protocol and `FLOW_ALPROTO_DETECT_DONE`
unset, detection runs once on the datagram payload with transport UDP and
the packet's direction flag and the flag is set regardless of the outcome;
if a protocol was identified the same payload is forwarded to its parser
and the parser's code is returned.  On every call where the flag is already
set, the payload goes straight to the parser exactly when the flow's
protocol is known. -/
theorem C7_udpDetectOnce (env : Env) (p : Packet) (f : Flow) (d e : Nat)
    (h1 : f.alproto = ALPROTO_UNKNOWN)
    (h2 : f.flags &&& FLOW_ALPROTO_DETECT_DONE = 0)
    (hdet : env.alpdGetProto f p.payload p.payload_len IPPROTO_UDP (udpDirFlags p) = (d, e)) :
    (d ≠ ALPROTO_UNKNOWN →
      AppLayerHandleUdp env p f =
        ⟨env.alpParseL7Data (udpPostDetect f d e) d (udpDirFlags p) p.payload p.payload_len,
         udpPostDetect f d e,
         [Ev.detect p.payload p.payload_len IPPROTO_UDP (udpDirFlags p),
          Ev.parse d (udpDirFlags p) p.payload p.payload_len]⟩) ∧
    (d = ALPROTO_UNKNOWN →
      AppLayerHandleUdp env p f =
        ⟨0, udpPostDetect f d e,
         [Ev.detect p.payload p.payload_len IPPROTO_UDP (udpDirFlags p)]⟩) ∧
    (∀ g : Flow, g.flags &&& FLOW_ALPROTO_DETECT_DONE ≠ 0 →
      (g.alproto ≠ ALPROTO_UNKNOWN →
        AppLayerHandleUdp env p g =
          ⟨env.alpParseL7Data g g.alproto (udpDirFlags p) p.payload p.payload_len, g,
           [Ev.parse g.alproto (udpDirFlags p) p.payload p.payload_len]⟩) ∧
      (g.alproto = ALPROTO_UNKNOWN → AppLayerHandleUdp env p g = ⟨0, g, []⟩)) := by
  refine ⟨?_, ?_, ?_⟩
  · intro hd
    unfold AppLayerHandleUdp
    rw [if_pos ⟨h1, h2⟩]
    simp only [hdet, udpPostDetect]
    rw [if_pos (by simpa using hd)]
    rfl
  · intro hd
    unfold AppLayerHandleUdp
    rw [if_pos ⟨h1, h2⟩]
    simp only [hdet, udpPostDetect]
    rw [if_neg (by simpa using hd)]
  · intro g hg
    refine ⟨?_, ?_⟩
    · intro ha
      unfold AppLayerHandleUdp
      rw [if_neg (fun hc => hg hc.2), if_pos ha]
    · intro ha
      unfold AppLayerHandleUdp
      rw [if_neg (fun hc => hg hc.2), if_neg (fun hc => hc ha)]

theorem C7_udpDetectOnce_witness :
    AppLayerHandleUdp c7env c7p c7f =
      ⟨c7env.alpParseL7Data (udpPostDetect c7f 1 0) 1 (udpDirFlags c7p)
         c7p.payload c7p.payload_len,
       udpPostDetect c7f 1 0,
       [Ev.detect c7p.payload c7p.payload_len IPPROTO_UDP (udpDirFlags c7p),
        Ev.parse 1 (udpDirFlags c7p) c7p.payload c7p.payload_len]⟩ :=
  (C7_udpDetectOnce c7env c7p c7f 1 0 (by decide) (by decide) rfl).1 (by decide)

/-- C6: in Case S, when detection fails in the current direction, the other
direction is also unknown, and the probing parser and pattern matcher are
done in both directions, the dispatcher sets `FLOW_NO_APPLAYER_INSPECTION`,
marks both streams' detection completed, sets `data_first_seen_dir` to the
sentinel, and returns 0 (not an error code); neither parser call nor event
is produced, so the exhaustion is observable only via the flow flag. -/
theorem C6_detectExhausted (env : Env) (inp : TcpIn) (f : Flow) (ssn : TcpSession)
    (p : Packet) (e : Nat)
    (hni : f.flags &&& FLOW_NO_APPLAYER_INSPECTION = 0)
    (hgap : inp.flags &&& STREAM_GAP = 0)
    (hstart : inp.flags &&& STREAM_START ≠ 0)
    (hts : f.alproto_ts = ALPROTO_UNKNOWN)
    (htc : f.alproto_tc = ALPROTO_UNKNOWN)
    (hdet : env.alpdGetProto f inp.data inp.data_len IPPROTO_TCP inp.flags =
      (ALPROTO_UNKNOWN, e))
    (h1 : (f.flags ||| e) &&& FLOW_TS_PM_ALPROTO_DETECT_DONE ≠ 0)
    (h2 : (f.flags ||| e) &&& FLOW_TS_PP_ALPROTO_DETECT_DONE ≠ 0)
    (h3 : (f.flags ||| e) &&& FLOW_TC_PM_ALPROTO_DETECT_DONE ≠ 0)
    (h4 : (f.flags ||| e) &&& FLOW_TC_PP_ALPROTO_DETECT_DONE ≠ 0) :
    ∃ out, AppLayerHandleTCPData env inp f ssn p = some out ∧
      out.r = 0 ∧
      out.f.flags = (f.flags ||| e) ||| FLOW_NO_APPLAYER_INSPECTION ∧
      out.f.flags &&& FLOW_NO_APPLAYER_INSPECTION ≠ 0 ∧
      out.ssn.client.flags =
        ssn.client.flags ||| STREAMTCP_STREAM_FLAG_APPPROTO_DETECTION_COMPLETED ∧
      out.ssn.server.flags =
        ssn.server.flags ||| STREAMTCP_STREAM_FLAG_APPPROTO_DETECTION_COMPLETED ∧
      out.ssn.data_first_seen_dir = APP_LAYER_DATA_ALREADY_SENT_TO_APP_LAYER ∧
      out.trace = [Ev.detect inp.data inp.data_len IPPROTO_TCP inp.flags] := by
  unfold AppLayerHandleTCPData tcpStartUnknown
  rw [if_neg (by simp [hni])]
  simp only [Flow.alprotoDir, setAlprotoDir_ts, setAlprotoDir_tc, setAlprotoDir_flags,
    orFlags_flags, orFlags_ts, orFlags_tc, orFlags_alproto, orFlags_proto,
    flowSetNoInsp_eq, setDfsd_dfsd, setDetectionCompletedBoth_client,
    setDetectionCompletedBoth_server,
    hts, htc, ite_self, hgap, hstart, hdet, FLOW_IS_PM_DONE_toserver,
    FLOW_IS_PP_DONE_toserver, FLOW_IS_PM_DONE_toclient, FLOW_IS_PP_DONE_toclient,
    h1, h2, h3, h4, ne_eq, not_true_eq_false,
    not_false_eq_true, and_false, false_and, and_true, true_and, and_self,
    if_false, if_true, ite_false, ite_true,
    eq_self_iff_true, not_true]
  refine ⟨_, rfl, rfl, ?_, ?_, ?_, ?_, rfl, rfl⟩
  · simp [flowSetSessionNoApplayerInspectionFlag, setAlprotoDir_flags]
  · simp [flowSetSessionNoApplayerInspectionFlag, setAlprotoDir_flags, lor_and_mask,
      FLOW_NO_APPLAYER_INSPECTION]
  · simp [setDetectionCompletedBoth, setDetectionCompleted]
  · simp [setDetectionCompletedBoth, setDetectionCompleted]

theorem C6_detectExhausted_witness :
    ∃ out, AppLayerHandleTCPData c6env c6inp c6f c6ssn c6p = some out ∧
      out.r = 0 ∧
      out.f.flags = (c6f.flags ||| 15) ||| FLOW_NO_APPLAYER_INSPECTION ∧
      out.f.flags &&& FLOW_NO_APPLAYER_INSPECTION ≠ 0 ∧
      out.ssn.client.flags =
        c6ssn.client.flags ||| STREAMTCP_STREAM_FLAG_APPPROTO_DETECTION_COMPLETED ∧
      out.ssn.server.flags =
        c6ssn.server.flags ||| STREAMTCP_STREAM_FLAG_APPPROTO_DETECTION_COMPLETED ∧
      out.ssn.data_first_seen_dir = APP_LAYER_DATA_ALREADY_SENT_TO_APP_LAYER ∧
      out.trace = [Ev.detect c6inp.data c6inp.data_len IPPROTO_TCP c6inp.flags] :=
  C6_detectExhausted c6env c6inp c6f c6ssn c6p 15 (by decide) (by decide) (by decide)
    rfl rfl rfl (by decide) (by decide) (by decide) (by decide)

/-- C3: in Case S, when detection on the current direction yields a protocol
different from the other direction's already-detected protocol, the
dispatcher emits `MISMATCH_PROTOCOL_BOTH_DIRECTIONS` on the triggering
packet; since `data_first_seen_dir` is the sentinel (data already went to
the parser), it canonicalizes `f->alproto` and the current direction's slot
to the other direction's protocol, and the call returns the parser's 0 —
the mismatch event is not an error. -/
theorem C3_mismatchCanonicalize (env : Env) (inp : TcpIn) (f : Flow) (ssn : TcpSession)
    (p : Packet) (a d e : Nat)
    (hni : f.flags &&& FLOW_NO_APPLAYER_INSPECTION = 0)
    (hgap : inp.flags &&& STREAM_GAP = 0)
    (hstart : inp.flags &&& STREAM_START ≠ 0)
    (hthis : f.alprotoDir (tcpDir inp) = ALPROTO_UNKNOWN)
    (hother : f.alprotoDir (!tcpDir inp) = a)
    (ha : a ≠ ALPROTO_UNKNOWN)
    (hdet : env.alpdGetProto f inp.data inp.data_len IPPROTO_TCP inp.flags = (d, e))
    (hd : d ≠ ALPROTO_UNKNOWN)
    (hne : a ≠ d)
    (hsent : ssn.data_first_seen_dir = APP_LAYER_DATA_ALREADY_SENT_TO_APP_LAYER)
    (hp : ∀ g pr fl bs ln, env.alpParseL7Data g pr fl bs ln = (0 : Int)) :
    ∃ out, AppLayerHandleTCPData env inp f ssn p = some out ∧
      out.p.app_layer_events =
        p.app_layer_events ++ [APPLAYER_MISMATCH_PROTOCOL_BOTH_DIRECTIONS] ∧
      out.f.alproto = a ∧
      out.f.alprotoDir (tcpDir inp) = a ∧
      out.f.alprotoDir (!tcpDir inp) = a ∧
      out.r = 0 := by
  unfold AppLayerHandleTCPData tcpStartDetected tcpReplayBlock tcpFirstDirChecks
    tcpDetectedParse
  simp only [hni, hthis, hother, hdet, hsent, hgap, hstart, hp, ha, hne, hd,
    sent_and_dirs,
    alprotoDir_self, alprotoDir_not, orFlags_alprotoDir, setAlproto_alprotoDir,
    setAlproto_alproto, setSoFarDir_alproto, setSoFarDir_alprotoDir,
    setDetectionCompleted_dfsd, setDfsd_dfsd, setEventRaw_events,
    ne_eq, not_true_eq_false, not_false_eq_true, and_false, false_and, and_true,
    true_and, and_self, if_false, if_true, ite_false, ite_true,
    eq_self_iff_true, not_true]
  refine ⟨_, rfl, ?_, ?_, ?_, ?_, rfl⟩ <;> simp [alprotoDir_self, alprotoDir_not, hother]

theorem C3_mismatchCanonicalize_witness :
    ∃ out, AppLayerHandleTCPData c3env c3inp c3f c3ssn c3p = some out ∧
      out.p.app_layer_events =
        c3p.app_layer_events ++ [APPLAYER_MISMATCH_PROTOCOL_BOTH_DIRECTIONS] ∧
      out.f.alproto = 1 ∧
      out.f.alprotoDir (tcpDir c3inp) = 1 ∧
      out.f.alprotoDir (!tcpDir c3inp) = 1 ∧
      out.r = 0 :=
  C3_mismatchCanonicalize c3env c3inp c3f c3ssn c3p 1 2 0 (by decide) (by decide)
    (by decide) (by decide) (by decide) (by decide) rfl (by decide) (by decide) rfl
    (fun _ _ _ _ _ => rfl)

/-- C9: in Case S with a nonempty chunk, the parser — whether invoked under
this direction's detected protocol or under the other direction's protocol —
receives exactly the suffix of the chunk starting at the stored carry
`data_al_so_far[dir]`, with the 32-bit length `data_len - carry`; when
`carry ≤ data_len` that length is the true suffix length, and when the
precondition fails the wrapped length exceeds the chunk length.  The carry
is re-established: zero after a parse that completes detection, otherwise
`data_len`. -/
theorem C9_carrySuffix (env : Env) (inp : TcpIn) (f : Flow) (ssn : TcpSession)
    (p : Packet) (a d e : Nat)
    (hni : f.flags &&& FLOW_NO_APPLAYER_INSPECTION = 0)
    (hgap : inp.flags &&& STREAM_GAP = 0)
    (hstart : inp.flags &&& STREAM_START ≠ 0)
    (hthis : f.alprotoDir (tcpDir inp) = ALPROTO_UNKNOWN)
    (hlen : inp.data_len ≠ 0)
    (h32 : inp.data_len < 4294967296)
    (hdet : env.alpdGetProto f inp.data inp.data_len IPPROTO_TCP inp.flags = (d, e))
    (hsent : ssn.data_first_seen_dir = APP_LAYER_DATA_ALREADY_SENT_TO_APP_LAYER) :
    (d ≠ ALPROTO_UNKNOWN → f.alprotoDir (!tcpDir inp) = ALPROTO_UNKNOWN →
      ∃ out, AppLayerHandleTCPData env inp f ssn p = some out ∧
        out.trace = [Ev.detect inp.data inp.data_len IPPROTO_TCP inp.flags,
          Ev.parse d inp.flags (inp.data.drop (f.soFarDir (tcpDir inp)))
            (u32sub inp.data_len (f.soFarDir (tcpDir inp)))] ∧
        out.f.soFarDir (tcpDir inp) = 0) ∧
    (d = ALPROTO_UNKNOWN → f.alprotoDir (!tcpDir inp) = a → a ≠ ALPROTO_UNKNOWN →
      ∃ out, AppLayerHandleTCPData env inp f ssn p = some out ∧
        out.trace = [Ev.detect inp.data inp.data_len IPPROTO_TCP inp.flags,
          Ev.parse a inp.flags (inp.data.drop (f.soFarDir (tcpDir inp)))
            (u32sub inp.data_len (f.soFarDir (tcpDir inp)))] ∧
        out.f.soFarDir (tcpDir inp) =
          (if FLOW_IS_PM_DONE ((f.setAlprotoDir (tcpDir inp) ALPROTO_UNKNOWN).orFlags e)
                inp.flags ∧
              FLOW_IS_PP_DONE ((f.setAlprotoDir (tcpDir inp) ALPROTO_UNKNOWN).orFlags e)
                inp.flags
            then 0 else inp.data_len)) ∧
    (f.soFarDir (tcpDir inp) ≤ inp.data_len →
      u32sub inp.data_len (f.soFarDir (tcpDir inp)) =
        inp.data_len - f.soFarDir (tcpDir inp)) ∧
    (∀ c l : Nat, l < c → c < 4294967296 → l < u32sub l c) := by
  have hpos : 0 < inp.data_len := Nat.pos_of_ne_zero hlen
  refine ⟨?_, ?_, fun hc => u32sub_of_le hc h32, fun c l h1 h2 => u32sub_gt h1 h2⟩
  · intro hd hother
    unfold AppLayerHandleTCPData tcpStartDetected tcpReplayBlock tcpFirstDirChecks
      tcpDetectedParse
    simp only [hni, hthis, hother, hdet, hsent, hgap, hstart, hlen, hd, sent_and_dirs,
      alprotoDir_self, alprotoDir_not, orFlags_alprotoDir, setAlproto_alprotoDir,
      setAlproto_alproto, setSoFarDir_alproto, setSoFarDir_alprotoDir,
      setDetectionCompleted_dfsd, setDfsd_dfsd, setEventRaw_events,
      ne_eq, not_true_eq_false, not_false_eq_true, and_false, false_and, and_true,
      true_and, and_self, if_false, if_true, ite_false, ite_true,
      eq_self_iff_true, not_true]
    refine ⟨_, rfl, ?_, ?_⟩ <;> simp [alprotoDir_self]
  · intro hd0 hother ha
    subst hd0
    unfold AppLayerHandleTCPData tcpStartUnknown
    simp only [hni, hthis, hother, hdet, hsent, hgap, hstart, hlen, ha, hpos,
      alprotoDir_not, orFlags_alprotoDir, setAlproto_alprotoDir,
      setDetectionCompleted_dfsd, setDfsd_dfsd,
      ne_eq, not_true_eq_false, not_false_eq_true, and_false, false_and, and_true,
      true_and, and_self, if_false, if_true, ite_false, ite_true,
      eq_self_iff_true, not_true]
    by_cases hC : FLOW_IS_PM_DONE ((f.setAlprotoDir (tcpDir inp) ALPROTO_UNKNOWN).orFlags e)
        inp.flags ∧
      FLOW_IS_PP_DONE ((f.setAlprotoDir (tcpDir inp) ALPROTO_UNKNOWN).orFlags e) inp.flags
    · rw [if_pos hC, if_pos hC]
      exact ⟨_, rfl, by simp, by simp⟩
    · rw [if_neg hC, if_neg hC]
      exact ⟨_, rfl, by simp, by simp⟩

theorem C9_carrySuffix_witness :
    ∃ out, AppLayerHandleTCPData c9env c9inp c9f c9ssn c9p = some out ∧
      out.trace = [Ev.detect [1, 2, 3, 4, 5] 5 IPPROTO_TCP 5, Ev.parse 3 5 [3, 4, 5] 3] ∧
      out.f.soFarDir (tcpDir c9inp) = 0 :=
  (C9_carrySuffix c9env c9inp c9f c9ssn c9p 0 3 0 (by decide) (by decide) (by decide)
    (by decide) (by decide) (by decide) rfl rfl).1 (by decide) (by decide)

/-- C2 counterexample: a call satisfying the claim's hypotheses (detection
succeeded with protocol 1, the parser's required first-data mask TOSERVER is
nonzero and does not intersect the call's TOCLIENT flags, the session is not
at the sentinel) where the dispatcher does NOT perform the claimed retry
reset: because the required mask also fails to intersect
`data_first_seen_dir` (= TOCLIENT), the earlier wrong-direction-first-data
branch fires first — the protocol stays recorded, inspection is disabled,
the event is emitted, and detection cannot retry. -/
theorem C2_counterexample :
    (c2env.alpdGetProto c2f c2inp.data c2inp.data_len IPPROTO_TCP c2inp.flags).1 ≠
      ALPROTO_UNKNOWN ∧
    c2env.alpGetFirstDataDir c2f.proto 1 ≠ 0 ∧
    c2env.alpGetFirstDataDir c2f.proto 1 &&& c2inp.flags = 0 ∧
    c2ssn.data_first_seen_dir ≠ APP_LAYER_DATA_ALREADY_SENT_TO_APP_LAYER ∧
    AppLayerHandleTCPData c2env c2inp c2f c2ssn c2p =
      some ⟨-1, ⟨32, 6, 1, 0, 1, 0, 0⟩, ⟨⟨1⟩, ⟨1⟩, 128, 0⟩,
        ⟨2, [APPLAYER_WRONG_DIRECTION_FIRST_DATA], [], 0⟩,
        [Ev.detect [9] 1 IPPROTO_TCP 9]⟩ ∧
    (⟨32, 6, 1, 0, 1, 0, 0⟩ : Flow).alproto ≠ ALPROTO_UNKNOWN ∧
    (⟨32, 6, 1, 0, 1, 0, 0⟩ : Flow).flags &&& FLOW_NO_APPLAYER_INSPECTION ≠ 0 ∧
    (⟨⟨1⟩, ⟨1⟩, 128, 0⟩ : TcpSession).client.flags &&&
      STREAMTCP_STREAM_FLAG_APPPROTO_DETECTION_COMPLETED ≠ 0 := by
  decide

/-- C2 (amended): in Case S, when detection succeeds on the current
direction, the parser requires first data in a nonzero mask that does not
intersect the current call's direction flags **but does intersect
`data_first_seen_dir`** (so the wrong-direction-first-data branch does not
fire first), the session is not at the sentinel, the other direction's slot
is UNKNOWN (the `BUG_ON` assertion holds), and any opposing-stream replay
returns non-negative: the dispatcher clears `f->alproto` and this
direction's slot back to UNKNOWN, clears this stream's detection-completed
flag, clears this direction's PP/PM-done flags, and returns -1, leaving the
flow able to retry detection later. -/
theorem C2_retryReset (env : Env) (inp : TcpIn) (f : Flow) (ssn : TcpSession)
    (p : Packet) (d e q : Nat) (rv : Int)
    (hni : f.flags &&& FLOW_NO_APPLAYER_INSPECTION = 0)
    (hgap : inp.flags &&& STREAM_GAP = 0)
    (hstart : inp.flags &&& STREAM_START ≠ 0)
    (hthis : f.alprotoDir (tcpDir inp) = ALPROTO_UNKNOWN)
    (hother : f.alprotoDir (!tcpDir inp) = ALPROTO_UNKNOWN)
    (hdet : env.alpdGetProto f inp.data inp.data_len IPPROTO_TCP inp.flags = (d, e))
    (hd : d ≠ ALPROTO_UNKNOWN)
    (hsent : ssn.data_first_seen_dir ≠ APP_LAYER_DATA_ALREADY_SENT_TO_APP_LAYER)
    (hq : env.alpGetFirstDataDir f.proto d = q)
    (hq0 : q ≠ 0)
    (hqflags : q &&& inp.flags = 0)
    (hqdfsd : q &&& ssn.data_first_seen_dir ≠ 0)
    (hr1 : ∀ s st pk, env.streamTcpReassembleAppLayer s st pk = rv)
    (hr2 : ∀ s st pk, env.streamTcpReassembleInlineAppLayer s st pk = rv)
    (hrv : 0 ≤ rv) :
    ∃ out, AppLayerHandleTCPData env inp f ssn p = some out ∧
      out.r = -1 ∧
      out.f.alproto = ALPROTO_UNKNOWN ∧
      out.f.alprotoDir (tcpDir inp) = ALPROTO_UNKNOWN ∧
      out.ssn.data_first_seen_dir = ssn.data_first_seen_dir ∧
      (tcpDir inp = true → out.f.flags =
        andNot (andNot (f.flags ||| e) FLOW_TS_PP_ALPROTO_DETECT_DONE)
          FLOW_TS_PM_ALPROTO_DETECT_DONE) ∧
      (tcpDir inp = false → out.f.flags =
        andNot (andNot (f.flags ||| e) FLOW_TC_PP_ALPROTO_DETECT_DONE)
          FLOW_TC_PM_ALPROTO_DETECT_DONE) ∧
      (inp.whichClient = true → out.ssn.client.flags &&&
        STREAMTCP_STREAM_FLAG_APPPROTO_DETECTION_COMPLETED = 0) ∧
      (inp.whichClient = false → out.ssn.server.flags &&&
        STREAMTCP_STREAM_FLAG_APPPROTO_DETECTION_COMPLETED = 0) := by
  have hnlt : ¬ rv < 0 := not_lt.mpr hrv
  unfold AppLayerHandleTCPData tcpStartDetected tcpReplayBlock tcpFirstDirChecks
    tcpDetectedParse
  simp only [hni, hthis, hother, hdet, hsent, hgap, hstart, hd, hq, hq0, hqflags,
    hqdfsd, hr1, hr2, hnlt,
    alprotoDir_self, alprotoDir_not, orFlags_alprotoDir, setAlproto_alprotoDir,
    setAlproto_alproto, setAlproto_proto, orFlags_proto, setAlprotoDir_proto,
    setSoFarDir_alproto, setSoFarDir_alprotoDir,
    setDetectionCompleted_dfsd, setDfsd_dfsd, setEventRaw_events,
    ne_eq, not_true_eq_false, not_false_eq_true, and_false, false_and, and_true,
    true_and, and_self, if_false, if_true, ite_false, ite_true, ite_self,
    eq_self_iff_true, not_true]
  split
  case isTrue hrep =>
    split
    all_goals
      refine ⟨_, rfl, rfl, by simp, by simp [alprotoDir_self], by simp, ?_, ?_, ?_, ?_⟩
    all_goals
      intro h
      first
      | (have h' := tcpDir_eq_true.mp h
         simp [FLOW_RESET_PM_DONE, FLOW_RESET_PP_DONE, h', setAlprotoDir_flags])
      | (have h' := tcpDir_eq_false.mp h
         have h'' : ¬ inp.flags &&& STREAM_TOSERVER ≠ 0 := fun hc => hc h'
         simp [FLOW_RESET_PM_DONE, FLOW_RESET_PP_DONE, h'', setAlprotoDir_flags])
      | simp [h, resetDetectionCompleted, setDetectionCompleted, andNot_land_self]
  case isFalse hrep =>
    refine ⟨_, rfl, rfl, by simp, by simp [alprotoDir_self], by simp, ?_, ?_, ?_, ?_⟩
    all_goals
      intro h
      first
      | (have h' := tcpDir_eq_true.mp h
         simp [FLOW_RESET_PM_DONE, FLOW_RESET_PP_DONE, h', setAlprotoDir_flags])
      | (have h' := tcpDir_eq_false.mp h
         have h'' : ¬ inp.flags &&& STREAM_TOSERVER ≠ 0 := fun hc => hc h'
         simp [FLOW_RESET_PM_DONE, FLOW_RESET_PP_DONE, h'', setAlprotoDir_flags])
      | simp [h, resetDetectionCompleted, setDetectionCompleted, andNot_land_self]

theorem C2_retryReset_witness :
    ∃ out, AppLayerHandleTCPData c2env c2inp c2f c2ssnB c2p = some out ∧
      out.r = -1 ∧
      out.f.alproto = ALPROTO_UNKNOWN ∧
      out.f.alprotoDir (tcpDir c2inp) = ALPROTO_UNKNOWN ∧
      out.ssn.data_first_seen_dir = c2ssnB.data_first_seen_dir ∧
      (tcpDir c2inp = true → out.f.flags =
        andNot (andNot (c2f.flags ||| 0) FLOW_TS_PP_ALPROTO_DETECT_DONE)
          FLOW_TS_PM_ALPROTO_DETECT_DONE) ∧
      (tcpDir c2inp = false → out.f.flags =
        andNot (andNot (c2f.flags ||| 0) FLOW_TC_PP_ALPROTO_DETECT_DONE)
          FLOW_TC_PM_ALPROTO_DETECT_DONE) ∧
      (c2inp.whichClient = true → out.ssn.client.flags &&&
        STREAMTCP_STREAM_FLAG_APPPROTO_DETECTION_COMPLETED = 0) ∧
      (c2inp.whichClient = false → out.ssn.server.flags &&&
        STREAMTCP_STREAM_FLAG_APPPROTO_DETECTION_COMPLETED = 0) :=
  C2_retryReset c2env c2inp c2f c2ssnB c2p 1 0 STREAM_TOSERVER 0 (by decide) (by decide)
    (by decide) (by decide) (by decide) rfl (by decide) (by decide) rfl (by decide)
    (by decide) (by decide) (fun _ _ _ => rfl) (fun _ _ _ => rfl) (by decide)

/-- C1 counterexample: in the two-call scenario of the claim (call A
TOCLIENT|START with unidentifiable bytes leaving both slots UNKNOWN and
`data_first_seen_dir = TOCLIENT`; call B TOSERVER|START identified as
protocol 1 whose parser requires first data toserver), call B does NOT
behave as claimed: it emits `WRONG_DIRECTION_FIRST_DATA`, never invokes the
parser, disables inspection, and returns -1 — the general rule
`(required & data_first_seen_dir) == 0` does fire. -/
theorem C1_counterexample :
    (c1env.alpdGetProto c1f c1inpA.data c1inpA.data_len IPPROTO_TCP c1inpA.flags).1 =
      ALPROTO_UNKNOWN ∧
    (c1env.alpdGetProto c1f c1inpB.data c1inpB.data_len IPPROTO_TCP c1inpB.flags).1 = 1 ∧
    c1env.alpGetFirstDataDir IPPROTO_TCP 1 = STREAM_TOSERVER ∧
    STREAM_TOSERVER &&& c1ssn.data_first_seen_dir = 0 ∧
    AppLayerHandleTCPData c1env c1inpA c1f c1ssn c1pA =
      some ⟨0, c1f, c1ssn, c1pA, [Ev.detect [9, 9] 2 IPPROTO_TCP 9]⟩ ∧
    AppLayerHandleTCPData c1env c1inpB c1f c1ssn c1pB =
      some ⟨-1, ⟨32, 6, 1, 1, 0, 0, 0⟩, ⟨⟨1⟩, ⟨1⟩, 128, 0⟩,
        ⟨1, [APPLAYER_WRONG_DIRECTION_FIRST_DATA], [], 0⟩,
        [Ev.detect [71, 69, 84] 3 IPPROTO_TCP 5, Ev.replay]⟩ ∧
    ((AppLayerHandleTCPData c1env c1inpB c1f c1ssn c1pB).map
      (fun o => (o.r, o.p.app_layer_events, o.trace.any Ev.isParse))) =
      some (-1, [APPLAYER_WRONG_DIRECTION_FIRST_DATA], false) := by
  decide

/-- C1 (amended): in the claimed scenario — data first seen TOCLIENT, both
slots UNKNOWN, then a TOSERVER|START call whose bytes are identified as a
protocol whose parser requires first data TOSERVER, with the forced
opposing-stream replay returning non-negative and leaving the recorded
first-data direction in place — call B emits `WRONG_DIRECTION_FIRST_DATA`
(the general rule does fire, since required & data_first_seen_dir = 0),
disables app-layer inspection, marks both streams' detection completed,
sets `data_first_seen_dir` to the sentinel, never invokes the parser, and
returns -1. -/
theorem C1_wrongDirFirstData (env : Env) (inp : TcpIn) (f : Flow) (ssn : TcpSession)
    (p : Packet) (d e : Nat) (rv : Int)
    (hni : f.flags &&& FLOW_NO_APPLAYER_INSPECTION = 0)
    (hgap : inp.flags &&& STREAM_GAP = 0)
    (hstart : inp.flags &&& STREAM_START ≠ 0)
    (hts : inp.flags &&& STREAM_TOSERVER ≠ 0)
    (htc : inp.flags &&& STREAM_TOCLIENT = 0)
    (hthis : f.alproto_ts = ALPROTO_UNKNOWN)
    (hother : f.alproto_tc = ALPROTO_UNKNOWN)
    (hdfsd : ssn.data_first_seen_dir = STREAM_TOCLIENT)
    (hdet : env.alpdGetProto f inp.data inp.data_len IPPROTO_TCP inp.flags = (d, e))
    (hd : d ≠ ALPROTO_UNKNOWN)
    (hq : env.alpGetFirstDataDir f.proto d = STREAM_TOSERVER)
    (hr1 : ∀ s st pk, env.streamTcpReassembleAppLayer s st pk = rv)
    (hr2 : ∀ s st pk, env.streamTcpReassembleInlineAppLayer s st pk = rv)
    (hrv : 0 ≤ rv) :
    ∃ out, AppLayerHandleTCPData env inp f ssn p = some out ∧
      out.r = -1 ∧
      out.p.app_layer_events =
        p.app_layer_events ++ [APPLAYER_WRONG_DIRECTION_FIRST_DATA] ∧
      out.f.flags &&& FLOW_NO_APPLAYER_INSPECTION ≠ 0 ∧
      out.ssn.client.flags &&& STREAMTCP_STREAM_FLAG_APPPROTO_DETECTION_COMPLETED ≠ 0 ∧
      out.ssn.server.flags &&& STREAMTCP_STREAM_FLAG_APPPROTO_DETECTION_COMPLETED ≠ 0 ∧
      out.ssn.data_first_seen_dir = APP_LAYER_DATA_ALREADY_SENT_TO_APP_LAYER ∧
      out.trace.any Ev.isParse = false := by
  have htd : tcpDir inp = true := tcpDir_eq_true.mpr hts
  have hnlt : ¬ rv < 0 := not_lt.mpr hrv
  have hc1 : ¬ STREAM_TOCLIENT &&& (STREAM_TOSERVER ||| STREAM_TOCLIENT) = 0 := by decide
  have hc2 : STREAM_TOCLIENT ≠ APP_LAYER_DATA_ALREADY_SENT_TO_APP_LAYER := by decide
  have hc3 : STREAM_TOSERVER ≠ 0 := by decide
  have hc4 : STREAM_TOSERVER &&& STREAM_TOCLIENT = 0 := by decide
  have hc5 : STREAMTCP_STREAM_FLAG_APPPROTO_DETECTION_COMPLETED ≠ 0 := by decide
  have hc6 : FLOW_NO_APPLAYER_INSPECTION ≠ 0 := by decide
  unfold AppLayerHandleTCPData tcpStartDetected tcpReplayBlock tcpFirstDirChecks
    tcpDetectedParse
  simp only [htd, hnlt, hni, hthis, hother, hdet, hdfsd, hgap, hstart, htc, hd, hq,
    hc1, hc2, hc3, hc4, hr1, hr2,
    alprotoDir_true, alprotoDir_false, alprotoDir_self, alprotoDir_not,
    orFlags_alprotoDir, setAlproto_alprotoDir, setAlproto_alproto, setAlproto_proto,
    orFlags_proto, setAlprotoDir_proto, setAlprotoDir_ts, setAlprotoDir_tc,
    orFlags_ts, orFlags_tc, setAlproto_ts, setAlproto_tc, orFlags_alproto,
    setSoFarDir_alproto, setSoFarDir_alprotoDir, setSoFarDir_ts, setSoFarDir_tc,
    setDetectionCompleted_dfsd, setDfsd_dfsd, setEventRaw_events,
    setPktToServer_events, setPktToClient_events, events_ite,
    Bool.not_true, Bool.not_false,
    ne_eq, not_true_eq_false, not_false_eq_true, and_false, false_and, and_true,
    true_and, and_self, if_false, if_true, ite_false, ite_true, ite_self,
    eq_self_iff_true, not_true]
  split
  all_goals
    refine ⟨_, rfl, rfl, by simp [events_ite], ?_, ?_, ?_, by simp, ?_⟩
  all_goals
    simp [flowSetNoInsp_eq, lor_and_mask, hc5, hc6, setDetectionCompletedBoth,
      setDetectionCompleted, List.any, Ev.isParse]

theorem C1_wrongDirFirstData_witness :
    ∃ out, AppLayerHandleTCPData c1env c1inpB c1f c1ssn c1pB = some out ∧
      out.r = -1 ∧
      out.p.app_layer_events =
        c1pB.app_layer_events ++ [APPLAYER_WRONG_DIRECTION_FIRST_DATA] ∧
      out.f.flags &&& FLOW_NO_APPLAYER_INSPECTION ≠ 0 ∧
      out.ssn.client.flags &&& STREAMTCP_STREAM_FLAG_APPPROTO_DETECTION_COMPLETED ≠ 0 ∧
      out.ssn.server.flags &&& STREAMTCP_STREAM_FLAG_APPPROTO_DETECTION_COMPLETED ≠ 0 ∧
      out.ssn.data_first_seen_dir = APP_LAYER_DATA_ALREADY_SENT_TO_APP_LAYER ∧
      out.trace.any Ev.isParse = false :=
  C1_wrongDirFirstData c1env c1inpB c1f c1ssn c1pB 1 0 0 (by decide) (by decide)
    (by decide) (by decide) (by decide) (by decide) (by decide) (by decide)
    (by decide) (by decide) (by decide) (fun _ _ _ => rfl) (fun _ _ _ => rfl) (by decide)

set_option maxHeartbeats 1000000 in
/-- C4: whenever the opposing-stream replay is performed (the guard of the
replay block of Case S holds: data was first seen in a direction other than
the current one), the packet's flow-direction flags are restored to their
original value before the block — and hence `AppLayerHandleTCPData`, which
returns its result unchanged — returns, on the success continuation as well
as on every failure continuation, provided the packet's direction bits were
the canonical ones for the stream being processed; and when the replay call
returns a negative result the dispatcher sets `NO_APPLAYER_INSPECTION` on
the flow, marks both streams' detection completed, and returns -1. -/
theorem C4_replayRestoresDirection (env : Env) (inp : TcpIn) (ts : Bool)
    (carry : Nat) (f : Flow) (ssn : TcpSession) (p : Packet) (tr : List Ev)
    (rv : Int)
    (hg1 : ssn.data_first_seen_dir &&& (STREAM_TOSERVER ||| STREAM_TOCLIENT) ≠ 0)
    (hg2 : inp.flags &&& ssn.data_first_seen_dir = 0)
    (hr1 : ∀ s st pk, env.streamTcpReassembleAppLayer s st pk = rv)
    (hr2 : ∀ s st pk, env.streamTcpReassembleInlineAppLayer s st pk = rv)
    (hdir : p.flowflags &&& (FLOW_PKT_TOSERVER ||| FLOW_PKT_TOCLIENT) =
      (if inp.whichClient = env.streamTcpInlineMode then FLOW_PKT_TOSERVER
       else FLOW_PKT_TOCLIENT)) :
    ∀ out, tcpReplayBlock env inp ts carry f ssn p tr = some out →
      out.p.flowflags = p.flowflags ∧
      Ev.replay ∈ out.trace ∧
      (rv < 0 → out.r = -1 ∧
        out.f.flags &&& FLOW_NO_APPLAYER_INSPECTION ≠ 0 ∧
        out.ssn.client.flags &&& STREAMTCP_STREAM_FLAG_APPPROTO_DETECTION_COMPLETED ≠ 0 ∧
        out.ssn.server.flags &&& STREAMTCP_STREAM_FLAG_APPPROTO_DETECTION_COMPLETED ≠ 0) := by
  have hc5 : STREAMTCP_STREAM_FLAG_APPPROTO_DETECTION_COMPLETED ≠ 0 := by decide
  have hc6 : FLOW_NO_APPLAYER_INSPECTION ≠ 0 := by decide
  have keyC : ∀ q : Packet, q.flowflags = p.flowflags → inp.whichClient = true →
      (if env.streamTcpInlineMode = true then
        setPktToServer (if env.streamTcpInlineMode = true then setPktToClient q
          else setPktToServer q)
      else setPktToClient (if env.streamTcpInlineMode = true then setPktToClient q
        else setPktToServer q)).flowflags = p.flowflags := by
    intro q hq hwc
    have hdir' := hdir
    rw [hwc] at hdir'
    cases hin : env.streamTcpInlineMode
    · rw [hin] at hdir'
      simp only [if_neg (by simp : ¬ (false = true)), setPktToServer_flowflags,
        setPktToClient_flowflags, hq]
      simp only [if_neg (by simp : ¬ (true = false))] at hdir'
      exact restore_dir_toclient p.flowflags hdir'
    · rw [hin] at hdir'
      simp only [if_pos rfl, if_true, ite_true, eq_self_iff_true,
        setPktToServer_flowflags, setPktToClient_flowflags, hq]
      simp only [if_pos rfl, if_true, ite_true, eq_self_iff_true] at hdir'
      exact restore_dir_toserver p.flowflags hdir'
  have keyS : ∀ q : Packet, q.flowflags = p.flowflags → inp.whichClient = false →
      (if env.streamTcpInlineMode = true then
        setPktToClient (if env.streamTcpInlineMode = true then setPktToServer q
          else setPktToClient q)
      else setPktToServer (if env.streamTcpInlineMode = true then setPktToServer q
        else setPktToClient q)).flowflags = p.flowflags := by
    intro q hq hwc
    have hdir' := hdir
    rw [hwc] at hdir'
    cases hin : env.streamTcpInlineMode
    · rw [hin] at hdir'
      simp only [if_neg (by simp : ¬ (false = true)), setPktToServer_flowflags,
        setPktToClient_flowflags, hq]
      simp only [if_pos rfl] at hdir'
      exact restore_dir_toserver p.flowflags hdir'
    · rw [hin] at hdir'
      simp only [if_pos rfl, if_true, ite_true, eq_self_iff_true,
        setPktToServer_flowflags, setPktToClient_flowflags, hq]
      simp only [if_neg (by simp : ¬ (false = true))] at hdir'
      exact restore_dir_toclient p.flowflags hdir'
  intro out hout
  unfold tcpReplayBlock tcpFirstDirChecks tcpDetectedParse at hout
  simp only [hg1, hg2, hr1, hr2,
    ne_eq, not_true_eq_false, not_false_eq_true, and_false, false_and, and_true,
    true_and, and_self, if_false, if_true, ite_false, ite_true, ite_self,
    eq_self_iff_true, not_true] at hout
  split at hout
  · -- stream == &ssn->client
    split at hout
    · -- replay failed
      injection hout with h2
      subst h2
      refine ⟨keyC p rfl (by assumption), by simp, fun hrv0 => ⟨rfl, ?_, ?_, ?_⟩⟩ <;>
        simp [flowSetNoInsp_eq, lor_and_mask, hc5, hc6, setDetectionCompletedBoth,
          setDetectionCompleted]
    · -- replay succeeded, fall through to the checks
      split at hout
      · split at hout
        · injection hout with h2
          subst h2
          refine ⟨?_, by simp, fun hrv0 => absurd hrv0 (by assumption)⟩
          simp only [setEventRaw_flowflags]
          exact keyC p rfl (by assumption)
        · split at hout
          · split at hout
            · exact Option.noConfusion hout
            · injection hout with h2
              subst h2
              exact ⟨keyC p rfl (by assumption), by simp,
                fun hrv0 => absurd hrv0 (by assumption)⟩
          · injection hout with h2
            subst h2
            exact ⟨keyC p rfl (by assumption), by simp,
              fun hrv0 => absurd hrv0 (by assumption)⟩
      · injection hout with h2
        subst h2
        exact ⟨keyC p rfl (by assumption), by simp,
          fun hrv0 => absurd hrv0 (by assumption)⟩
  · -- stream == &ssn->server
    rename_i hwcn
    have hwcF : inp.whichClient = false := by
      cases hb : inp.whichClient
      · rfl
      · exact absurd hb hwcn
    split at hout
    · injection hout with h2
      subst h2
      refine ⟨keyS p rfl (by assumption), by simp, fun hrv0 => ⟨rfl, ?_, ?_, ?_⟩⟩ <;>
        simp [flowSetNoInsp_eq, lor_and_mask, hc5, hc6, setDetectionCompletedBoth,
          setDetectionCompleted]
    · split at hout
      · split at hout
        · injection hout with h2
          subst h2
          refine ⟨?_, by simp, fun hrv0 => absurd hrv0 (by assumption)⟩
          simp only [setEventRaw_flowflags]
          exact keyS p rfl (by assumption)
        · split at hout
          · split at hout
            · exact Option.noConfusion hout
            · injection hout with h2
              subst h2
              exact ⟨keyS p rfl (by assumption), by simp,
                fun hrv0 => absurd hrv0 (by assumption)⟩
          · injection hout with h2
            subst h2
            exact ⟨keyS p rfl (by assumption), by simp,
              fun hrv0 => absurd hrv0 (by assumption)⟩
      · injection hout with h2
        subst h2
        exact ⟨keyS p rfl (by assumption), by simp,
          fun hrv0 => absurd hrv0 (by assumption)⟩

theorem C4_replayRestoresDirection_witness :
    (⟨-1, ⟨32, 6, 0, 0, 0, 0, 0⟩, ⟨⟨1⟩, ⟨1⟩, 8, 0⟩, ⟨2, [], [], 0⟩,
      [Ev.replay]⟩ : TcpOut).p.flowflags = c4p.flowflags ∧
    Ev.replay ∈ (⟨-1, ⟨32, 6, 0, 0, 0, 0, 0⟩, ⟨⟨1⟩, ⟨1⟩, 8, 0⟩, ⟨2, [], [], 0⟩,
      [Ev.replay]⟩ : TcpOut).trace ∧
    ((-1 : Int) < 0 →
      (⟨-1, ⟨32, 6, 0, 0, 0, 0, 0⟩, ⟨⟨1⟩, ⟨1⟩, 8, 0⟩, ⟨2, [], [], 0⟩,
        [Ev.replay]⟩ : TcpOut).r = -1 ∧
      (⟨-1, ⟨32, 6, 0, 0, 0, 0, 0⟩, ⟨⟨1⟩, ⟨1⟩, 8, 0⟩, ⟨2, [], [], 0⟩,
        [Ev.replay]⟩ : TcpOut).f.flags &&& FLOW_NO_APPLAYER_INSPECTION ≠ 0 ∧
      (⟨-1, ⟨32, 6, 0, 0, 0, 0, 0⟩, ⟨⟨1⟩, ⟨1⟩, 8, 0⟩, ⟨2, [], [], 0⟩,
        [Ev.replay]⟩ : TcpOut).ssn.client.flags &&&
          STREAMTCP_STREAM_FLAG_APPPROTO_DETECTION_COMPLETED ≠ 0 ∧
      (⟨-1, ⟨32, 6, 0, 0, 0, 0, 0⟩, ⟨⟨1⟩, ⟨1⟩, 8, 0⟩, ⟨2, [], [], 0⟩,
        [Ev.replay]⟩ : TcpOut).ssn.server.flags &&&
          STREAMTCP_STREAM_FLAG_APPPROTO_DETECTION_COMPLETED ≠ 0) :=
  C4_replayRestoresDirection c4env c4inp true 0 c4f c4ssn c4p [] (-1)
    (by decide) (by decide) (fun _ _ _ => rfl) (fun _ _ _ => rfl) (by decide)
    ⟨-1, ⟨32, 6, 0, 0, 0, 0, 0⟩, ⟨⟨1⟩, ⟨1⟩, 8, 0⟩, ⟨2, [], [], 0⟩, [Ev.replay]⟩
    (by decide)

theorem inv_of_dir_unknown {g : Flow} (b : Bool)
    (hb : g.alprotoDir b = ALPROTO_UNKNOWN) : FlowAlprotoInv g := by
  cases b
  · exact fun _ h2 => absurd hb h2
  · exact fun h1 _ => absurd hb h1

theorem inv_of_eqs {g : Flow} (h1 : g.alproto_ts = g.alproto_tc)
    (h2 : g.alproto = g.alproto_ts) : FlowAlprotoInv g :=
  fun _ _ => ⟨h1, h2⟩

theorem inv_congr {g g' : Flow} (hts : g'.alproto_ts = g.alproto_ts)
    (htc : g'.alproto_tc = g.alproto_tc) (ha : g'.alproto = g.alproto)
    (h : FlowAlprotoInv g) : FlowAlprotoInv g' := by
  intro h1 h2
  rw [hts] at h1
  rw [htc] at h2
  obtain ⟨e1, e2⟩ := h h1 h2
  exact ⟨by rw [hts, htc, e1], by rw [ha, hts, e2]⟩

theorem inv_detectedParse (env : Env) (inp : TcpIn) (ts : Bool) (carry : Nat)
    (f : Flow) (ssn : TcpSession) (p : Packet) (tr : List Ev)
    (h : FlowAlprotoInv f) :
    FlowAlprotoInv (tcpDetectedParse env inp ts carry f ssn p tr).f := by
  unfold tcpDetectedParse
  exact inv_congr (by simp) (by simp) (by simp) h

theorem inv_firstDirChecks (env : Env) (inp : TcpIn) (ts : Bool) (carry : Nat)
    (f : Flow) (ssn : TcpSession) (p : Packet) (tr : List Ev) (out : TcpOut)
    (h : FlowAlprotoInv f)
    (hout : tcpFirstDirChecks env inp ts carry f ssn p tr = some out) :
    FlowAlprotoInv out.f := by
  unfold tcpFirstDirChecks at hout
  simp only [ne_eq] at hout
  split at hout
  · split at hout
    · injection hout with h2
      subst h2
      exact inv_congr (by simp) (by simp) (by simp) h
    · split at hout
      · split at hout
        · exact Option.noConfusion hout
        · injection hout with h2
          subst h2
          apply inv_of_dir_unknown ts
          simp [alprotoDir_self]
      · injection hout with h2
        subst h2
        exact inv_detectedParse env inp ts carry f ssn p tr h
  · injection hout with h2
    subst h2
    exact inv_detectedParse env inp ts carry f ssn p tr h

theorem inv_replayBlock (env : Env) (inp : TcpIn) (ts : Bool) (carry : Nat)
    (f : Flow) (ssn : TcpSession) (p : Packet) (tr : List Ev) (out : TcpOut)
    (h : FlowAlprotoInv f)
    (hout : tcpReplayBlock env inp ts carry f ssn p tr = some out) :
    FlowAlprotoInv out.f := by
  unfold tcpReplayBlock at hout
  simp only [ne_eq] at hout
  repeat' split at hout
  all_goals
    first
    | (injection hout with h2
       subst h2
       exact inv_congr (by simp) (by simp) (by simp) h)
    | exact inv_firstDirChecks _ _ _ _ _ _ _ _ _ h hout

theorem inv_startDetected (env : Env) (inp : TcpIn) (ts : Bool) (carry d : Nat)
    (f : Flow) (ssn : TcpSession) (p : Packet) (tr : List Ev) (out : TcpOut)
    (hft : f.alprotoDir ts = d)
    (hout : tcpStartDetected env inp ts carry d f ssn p tr = some out) :
    FlowAlprotoInv out.f := by
  unfold tcpStartDetected at hout
  simp only [ne_eq] at hout
  split at hout
  · -- mismatch with the other direction
    split at hout
    · -- data already sent: canonicalize to the other side
      refine inv_replayBlock _ _ _ _ _ _ _ _ _ (inv_of_eqs ?_ ?_) hout <;>
        cases ts <;>
          simp_all [Flow.setAlprotoDir, Flow.alprotoDir, Flow.setAlproto]
    · split at hout
      · -- toclient: overwrite the other direction with the detected protocol
        refine inv_replayBlock _ _ _ _ _ _ _ _ _ (inv_of_eqs ?_ ?_) hout <;>
          cases ts <;>
            simp_all [Flow.setAlprotoDir, Flow.alprotoDir, Flow.setAlproto]
      · -- toserver: overwrite this direction with the other side's protocol
        refine inv_replayBlock _ _ _ _ _ _ _ _ _ (inv_of_eqs ?_ ?_) hout <;>
          cases ts <;>
            simp_all [Flow.setAlprotoDir, Flow.alprotoDir, Flow.setAlproto]
  · -- no mismatch
    rename_i hnm
    refine inv_replayBlock _ _ _ _ _ _ _ _ _ ?_ hout
    intro h1 h2
    rcases Decidable.not_and_iff_or_not.mp hnm with hc | hc
    all_goals
      cases ts <;>
        simp_all [Flow.setAlprotoDir, Flow.alprotoDir, Flow.setAlproto]

theorem inv_startUnknown (env : Env) (inp : TcpIn) (ts : Bool) (carry : Nat)
    (f : Flow) (ssn : TcpSession) (p : Packet) (tr : List Ev) (out : TcpOut)
    (hft : f.alprotoDir ts = ALPROTO_UNKNOWN)
    (hout : tcpStartUnknown env inp ts carry f ssn p tr = some out) :
    FlowAlprotoInv out.f := by
  have hbase : FlowAlprotoInv f := inv_of_dir_unknown ts hft
  unfold tcpStartUnknown at hout
  simp only [ne_eq] at hout
  split at hout
  · split at hout
    · injection hout with h2
      subst h2
      exact inv_congr (by simp) (by simp) (by simp) hbase
    · split at hout
      all_goals
        injection hout with h2
        subst h2
        exact inv_congr (by simp) (by simp) (by simp) hbase
  · split at hout
    all_goals
      injection hout with h2
      subst h2
      exact inv_congr (by simp) (by simp) (by simp) hbase

/-- One TCP dispatch call preserves direction-protocol consistency. -/
theorem inv_handleTCPData (env : Env) (inp : TcpIn) (f : Flow) (ssn : TcpSession)
    (p : Packet) (out : TcpOut) (h : FlowAlprotoInv f)
    (hout : AppLayerHandleTCPData env inp f ssn p = some out) :
    FlowAlprotoInv out.f := by
  unfold AppLayerHandleTCPData at hout
  simp only [ne_eq] at hout
  split at hout
  · injection hout with h2
    subst h2
    exact h
  · split at hout
    · injection hout with h2
      subst h2
      exact h
    · split at hout
      · split at hout
        · refine inv_startDetected _ _ _ _ _ _ _ _ _ _ ?_ hout
          simp [alprotoDir_self]
        · rename_i hd
          refine inv_startUnknown _ _ _ _ _ _ _ _ _ ?_ hout
          have hd0 : (env.alpdGetProto f inp.data inp.data_len IPPROTO_TCP
              inp.flags).1 = ALPROTO_UNKNOWN := by
            by_contra hc
            exact hd hc
          simp [alprotoDir_self, hd0]
      · split at hout
        all_goals
          injection hout with h2
          subst h2
          exact h

/-- A run of the dispatcher preserves direction-protocol consistency of the
flow across any sequence of calls. -/
theorem inv_runTcpSeq (calls : List SeqCall) (st st' : Flow × TcpSession)
    (h : FlowAlprotoInv st.1) (hrun : runTcpSeq st calls = some st') :
    FlowAlprotoInv st'.1 := by
  induction calls generalizing st with
  | nil =>
    unfold runTcpSeq at hrun
    injection hrun with h2
    subst h2
    exact h
  | cons c cs ih =>
    unfold runTcpSeq at hrun
    simp only at hrun
    split at hrun
    · exact absurd hrun (by simp)
    · rename_i o ho
      exact ih (o.f, o.ssn) (inv_handleTCPData _ _ _ _ _ _ h ho) hrun

/-- C10: starting from a flow whose `alproto`, `alproto_ts` and `alproto_tc`
are all UNKNOWN, after any sequence of `AppLayerHandleTCPData` calls that
does not crash, whenever both per-direction slots are non-UNKNOWN they are
equal to each other and to `f->alproto`. -/
theorem C10_dirProtoConsistency (f0 : Flow) (ssn0 : TcpSession)
    (calls : List SeqCall) (st' : Flow × TcpSession)
    (h0 : f0.alproto = ALPROTO_UNKNOWN) (h0ts : f0.alproto_ts = ALPROTO_UNKNOWN)
    (h0tc : f0.alproto_tc = ALPROTO_UNKNOWN)
    (hrun : runTcpSeq (f0, ssn0) calls = some st')
    (hts : st'.1.alproto_ts ≠ ALPROTO_UNKNOWN)
    (htc : st'.1.alproto_tc ≠ ALPROTO_UNKNOWN) :
    st'.1.alproto_ts = st'.1.alproto_tc ∧ st'.1.alproto = st'.1.alproto_ts := by
  refine inv_runTcpSeq calls (f0, ssn0) st' ?_ hrun hts htc
  intro hts0 _
  exact absurd h0ts hts0

/-- Concrete run for C10: a toserver chunk then a toclient chunk, both
detected as protocol 1, starting from the all-UNKNOWN flow, end with both
slots and the canonical protocol equal. -/
theorem C10_dirProtoConsistency_witness :
    ∃ st', runTcpSeq (c10f, c10ssn) c10calls = some st' ∧
      st'.1.alproto_ts ≠ ALPROTO_UNKNOWN ∧ st'.1.alproto_tc ≠ ALPROTO_UNKNOWN ∧
      (st'.1.alproto_ts = st'.1.alproto_tc ∧ st'.1.alproto = st'.1.alproto_ts) := by
  refine ⟨(⟨0, IPPROTO_TCP, 1, 1, 1, 0, 0⟩,
    ⟨⟨1⟩, ⟨1⟩, APP_LAYER_DATA_ALREADY_SENT_TO_APP_LAYER, 0⟩), rfl, by decide, by decide, ?_⟩
  exact C10_dirProtoConsistency c10f c10ssn c10calls _ rfl rfl rfl rfl
    (by decide) (by decide)

end AppLayer
